import Mathlib

/-!
# Session lifecycle of the WhatsApp gateway controller

A shallow embedding of `src/controllers/whatsappController.js`.

The controller object keeps four JavaScript `Map`s (sessions, stores, qrCodes,
retries) keyed by session id, and a directory of credential folders on disk.
Every method of the class is embedded as a pure function on an explicit
`Controller` state.  JavaScript is single threaded: a handler runs without
interruption up to its next `await`, so the two suspension points that the
lifecycle depends on (the awaits at the head of `initializeSession`, and the
`await delay(3000)` of the retry branch) are embedded as two separate functions
each, a part that runs up to the suspension and a part that resumes after it.
The handler of `connection.update` also awaits the rendering of a pairing code
(line 132); it changes nothing before that await, so its effect is that of the
event handled when the rendering is over, and the executions below admit an
event of a session at any time after a socket was made for it.

External collaborators (the Baileys socket, the QR renderer, axios) are taken
as parameters or recorded as calls; they are not implemented here.
-/

namespace Zap

/-! ## JavaScript `Map` with string keys -/

/-- A JavaScript `Map` keyed by strings: its entries in insertion order. -/
structure JsMap (α : Type) where
  entries : List (String × α)
deriving DecidableEq, Repr

namespace JsMap

variable {α : Type}

/-- The entry lookup on the underlying list: the first entry for key `k`. -/
def lookup : List (String × α) → String → Option α
  | [], _ => none
  | (k', v) :: rest, k => if k' = k then some v else lookup rest k

/-- Replace the value of key `k` in place, or append a new entry at the end. -/
def insert : List (String × α) → String → α → List (String × α)
  | [], k, v => [(k, v)]
  | (k', v') :: rest, k, v => if k' = k then (k, v) :: rest else (k', v') :: insert rest k v

/-- Drop every entry of key `k`. -/
def remove : List (String × α) → String → List (String × α)
  | [], _ => []
  | (k', v') :: rest, k => if k' = k then remove rest k else (k', v') :: remove rest k

/-- The `new Map()` of the constructor. -/
def empty : JsMap α := ⟨[]⟩

/-- The method `Map.prototype.get`; `none` is JavaScript `undefined`. -/
def get (m : JsMap α) (k : String) : Option α := lookup m.entries k

/-- The method `Map.prototype.has`. -/
def has (m : JsMap α) (k : String) : Bool := (m.get k).isSome

/-- The method `Map.prototype.set`. -/
def set (m : JsMap α) (k : String) (v : α) : JsMap α := ⟨insert m.entries k v⟩

/-- The method `Map.prototype.delete`. -/
def delete (m : JsMap α) (k : String) : JsMap α := ⟨remove m.entries k⟩

end JsMap

/-! ## Data model -/

/-- The `user` object of a socket: the paired account. -/
structure User where
  /-- The account id, of the form `phone:device@server`. -/
  id : String
  /-- The display name, when the account has one. -/
  name : Option String
deriving DecidableEq, Repr

/-- A socket returned by `makeWASocket`.  `sockId` numbers the sockets in the
order of their creation; `user` is `none` while the socket has no identity. -/
structure Sock where
  sockId : Nat
  user : Option User
deriving DecidableEq, Repr

/-- The store created for a session and bound to the events of one socket. -/
structure Store where
  boundTo : Nat
deriving DecidableEq, Repr

/-- The controller object together with the part of its environment that the
methods read and write.

* `sessions`, `stores`, `qrCodes`, `retries`: the four maps of the constructor.
* `authDirs`: the session ids whose credential folder exists under `authDir`.
* `sockets`: how many times `makeWASocket` has been called.
* `ended`, `loggedOut`: the sockets on which `end()` and `logout()` were called.
* `handlers`: the session id of every socket made so far; the handlers that
  lines 127-217 register on a socket are closures over that id and are never
  removed by the controller.
* `inits`: calls of `initializeSession` suspended at the awaits of lines 82-83.
* `timers`: close handlers suspended at `await delay(3000)` (line 180). -/
structure Controller where
  sessions : JsMap Sock
  stores : JsMap Store
  qrCodes : JsMap String
  retries : JsMap Nat
  authDirs : List String
  sockets : Nat
  ended : List Nat
  loggedOut : List Nat
  handlers : List String
  inits : List String
  timers : List String
deriving DecidableEq, Repr

/-- The controller right after `new WhatsAppController()`. -/
def Controller.init : Controller :=
  { sessions := JsMap.empty, stores := JsMap.empty, qrCodes := JsMap.empty,
    retries := JsMap.empty, authDirs := [], sockets := 0, ended := [],
    loggedOut := [], handlers := [], inits := [], timers := [] }

/-- The three constants of the Baileys enumeration `DisconnectReason` that the
close handler reads.  The enumeration is imported from the library (lines 1-9)
and is not part of the repository, so its values are a parameter of the
model. -/
structure DisconnectReason where
  loggedOut : Nat
  badSession : Nat
  connectionReplaced : Nat
deriving DecidableEq, Repr

/-- The values of the three constants in the Baileys library, which are the
values that the code reads: `loggedOut = 401`, `badSession = 500`,
`connectionReplaced = 440`. -/
def DisconnectReason.baileys : DisconnectReason :=
  { loggedOut := 401, badSession := 500, connectionReplaced := 440 }

/-- The values that the comments of lines 155-157 give for the three
constants; the comment of line 156 gives 400 for `badSession`. -/
def DisconnectReason.commented : DisconnectReason :=
  { loggedOut := 401, badSession := 400, connectionReplaced := 440 }

/-- The `error` of a `lastDisconnect`: a `Boom` with its status code, or any
other error value. -/
inductive DisconnectError where
  | boom (statusCode : Nat)
  | other
deriving DecidableEq, Repr

/-- The values of `update.connection` that the handler distinguishes. -/
inductive Connection where
  | close
  | opened
  | connecting
deriving DecidableEq, Repr

/-- The argument of a `connection.update` event.  `lastDisconnect` holds the
error of the `lastDisconnect` object (`none` when the object or its error is
missing). -/
structure Update where
  connection : Option Connection
  lastDisconnect : Option DisconnectError
  qr : Option String
deriving DecidableEq, Repr

/-- A JSON value of a response body. -/
inductive JVal where
  | str (s : String)
  | bool (b : Bool)
deriving DecidableEq, Repr

/-- An HTTP response: the status code and the fields of the JSON body. -/
structure Response where
  code : Nat
  body : List (String × JVal)
deriving DecidableEq, Repr

/-- The response of `res.json(body)`. -/
def Response.json (body : List (String × JVal)) : Response := ⟨200, body⟩

/-- The response of `res.status(code).json(body)` with an `error` field. -/
def Response.error (code : Nat) (msg : String) : Response := ⟨code, [("error", .str msg)]⟩

/-! ## JavaScript helpers -/

/-- Truthiness of a value that is `undefined` or a string. -/
def truthy (v : Option String) : Bool :=
  match v with
  | none => false
  | some s => s != ""

/-- The expression `v || d` for `v` undefined or a string. -/
def orElse (v : Option String) (d : String) : String :=
  match v with
  | none => d
  | some s => if s = "" then d else s

/-- The method `String.prototype.includes` for a one-character needle. -/
def includes (s : String) (c : Char) : Bool := s.data.contains c

/-- The method `String.prototype.startsWith`. -/
def startsWith (s p : String) : Bool := p.data.isPrefixOf s.data

/-- The expression `user.id.split(':')[0]`: the id up to its first colon. -/
def phone (u : User) : String := String.mk (u.id.data.takeWhile (fun ch => ch != ':'))

/-- The fields `phone` and `name` of a response about a connected socket; a
`name` that is undefined is left out of the JSON. -/
def identityFields (u : User) : List (String × JVal) :=
  ("phone", .str (phone u)) ::
    (match u.name with
     | some n => [("name", .str n)]
     | none => [])

/-! ## Session initialisation and cleanup -/

/-- The part of `initializeSession` before its first `await` (lines 76-82),
in the case where `mkdirSync` succeeds: the credential folder of the session
is created when it does not exist, and the call then waits for
`useMultiFileAuthState` and `fetchLatestBaileysVersion`.  The case where
`mkdirSync` throws is `createSessionThrows`. -/
def initializeSessionBegin (sessionId : String) (c : Controller) : Controller :=
  { c with
    authDirs := if c.authDirs.contains sessionId then c.authDirs else sessionId :: c.authDirs,
    inits := sessionId :: c.inits }

/-- The part of `initializeSession` after its awaits (lines 84-217), in the
case where the external calls succeed: a store is entered in `stores`, a new
socket is made, the store is bound to it, the socket is entered in `sessions`
(in the place of the socket that was registered for the id, if any, which is
not ended) and the three event handlers are registered on it.  A new socket
has no identity. -/
def initializeSessionResume (sessionId : String) (c : Controller) : Controller :=
  { c with
    stores := c.stores.set sessionId ⟨c.sockets⟩,
    sessions := c.sessions.set sessionId { sockId := c.sockets, user := none },
    sockets := c.sockets + 1,
    handlers := sessionId :: c.handlers,
    inits := c.inits.erase sessionId }

/-- A run of `initializeSession` during which nothing else is scheduled. -/
def initializeSession (sessionId : String) (c : Controller) : Controller :=
  initializeSessionResume sessionId (initializeSessionBegin sessionId c)

/-- The method `cleanupSession` (lines 220-236). -/
def cleanupSession (sessionId : String) (c : Controller) : Controller :=
  let c1 : Controller :=
    match c.sessions.get sessionId with
    | some sock => { c with ended := sock.sockId :: c.ended,
                            sessions := c.sessions.delete sessionId }
    | none => c
  { c1 with
    stores := c1.stores.delete sessionId,
    qrCodes := c1.qrCodes.delete sessionId,
    retries := c1.retries.delete sessionId }

/-- The removal of the credential folder of a session:
`if (fs.existsSync(sessionPath)) fs.rmSync(sessionPath, ...)`. -/
def removeAuth (sessionId : String) (c : Controller) : Controller :=
  { c with authDirs := c.authDirs.filter (fun d => d != sessionId) }

/-! ## The `connection.update` handler -/

/-- The call `qrcode.toDataURL(qr)`: the renderer `render` produces the
base64 image of the code, or fails, and the result is a data URL. -/
def toDataURL (render : String → Option String) (qr : String) : Option String :=
  (render qr).map (fun img => "data:image/png;base64," ++ img)

/-- The status code of a close (lines 145-147): that of the `Boom`, else 500. -/
def statusCode (lastDisconnect : Option DisconnectError) : Nat :=
  match lastDisconnect with
  | some (.boom code) => code
  | _ => 500

/-- The array `doNotReconnect` (lines 154-158). -/
def doNotReconnect (dr : DisconnectReason) : List Nat :=
  [dr.loggedOut, dr.badSession, dr.connectionReplaced]

/-- The expression `controller.retries.get(sessionId) || 0` (line 174). -/
def retryCount (sessionId : String) (c : Controller) : Nat :=
  (c.retries.get sessionId).getD 0

/-- The branch `if (qr)` of the handler (lines 130-142): a rendered code is
cached; a failure of the renderer is caught and changes nothing.  The renderer
is awaited (line 132) and the handler changes nothing before that await, so
this function is the effect of the handler from the moment the rendering is
over; what was scheduled during the rendering has already acted on `c`. -/
def qrBranch (render : String → Option String) (sessionId : String) (qr : Option String)
    (c : Controller) : Controller :=
  if truthy qr then
    match toDataURL render (qr.getD "") with
    | some qrImage => { c with qrCodes := c.qrCodes.set sessionId qrImage }
    | none => c
  else c

/-- The branch `connection === 'close'` of the handler up to its suspension
(lines 144-191).  On a code of `doNotReconnect`, and on any other code once
two retries were made, the session is cleaned up and its credential folder is
removed.  Otherwise the retry count is incremented and the handler waits at
`await delay(3000)`. -/
def closeBranch (dr : DisconnectReason) (sessionId : String)
    (lastDisconnect : Option DisconnectError) (c : Controller) : Controller :=
  if (doNotReconnect dr).contains (statusCode lastDisconnect) then
    removeAuth sessionId (cleanupSession sessionId c)
  else if retryCount sessionId c < 2 then
    { c with retries := c.retries.set sessionId (retryCount sessionId c + 1),
             timers := sessionId :: c.timers }
  else
    removeAuth sessionId (cleanupSession sessionId c)

/-- The branch `connection === 'open'` of the handler (lines 192-205). -/
def openBranch (sessionId : String) (c : Controller) : Controller :=
  { c with qrCodes := c.qrCodes.delete sessionId, retries := c.retries.delete sessionId }

/-- The `connection.update` handler registered for `sessionId` (lines
127-209), run up to the point where it ends or waits at `await delay(3000)`. -/
def connectionUpdate (dr : DisconnectReason) (render : String → Option String)
    (sessionId : String) (update : Update) (c : Controller) : Controller :=
  let c1 := qrBranch render sessionId update.qr c
  match update.connection with
  | some .close => closeBranch dr sessionId update.lastDisconnect c1
  | some .opened => openBranch sessionId c1
  | _ => c1

/-- The handler when `await delay(3000)` is over (line 181), up to the
suspension of the call of `initializeSession` that it makes, whatever happened
during the delay. -/
def afterDelayBegin (sessionId : String) (c : Controller) : Controller :=
  initializeSessionBegin sessionId { c with timers := c.timers.erase sessionId }

/-- The handler after `await delay(3000)` with its call of `initializeSession`
run to the end. -/
def afterDelay (sessionId : String) (c : Controller) : Controller :=
  initializeSessionResume sessionId (afterDelayBegin sessionId c)

/-- Whether the handler waits at `await delay(3000)` on this update. -/
def suspends (dr : DisconnectReason) (sessionId : String) (update : Update)
    (c : Controller) : Bool :=
  update.connection = some .close &&
    !(doNotReconnect dr).contains (statusCode update.lastDisconnect) &&
    decide (retryCount sessionId c < 2)

/-- The handler run to its end, the retry delay included, with nothing else
scheduled in between. -/
def handleUpdate (dr : DisconnectReason) (render : String → Option String)
    (sessionId : String) (update : Update) (c : Controller) : Controller :=
  let c1 := connectionUpdate dr render sessionId update c
  if suspends dr sessionId update (qrBranch render sessionId update.qr c) then
    afterDelay sessionId c1
  else c1

/-- A close event with the given `lastDisconnect` error. -/
def Update.closed (lastDisconnect : Option DisconnectError) : Update :=
  { connection := some .close, lastDisconnect := lastDisconnect, qr := none }

/-- The event that announces an open connection. -/
def Update.isOpen : Update :=
  { connection := some .opened, lastDisconnect := none, qr := none }

/-- The event that carries a pairing code. -/
def Update.pairing (qr : String) : Update :=
  { connection := none, lastDisconnect := none, qr := some qr }

/-! ## Administrative requests -/

/-- The response for a session that is already registered (lines 43-56). -/
def existingResponse (session_id : String) (sock : Sock) : Response :=
  match sock.user with
  | some u => .json [("message", .str "Session déjà connectée"), ("session_id", .str session_id),
                     ("status", .str "connected"), ("phone", .str (phone u))]
  | none => .json [("message", .str "Session existe déjà"), ("session_id", .str session_id),
                   ("status", .str "existing")]

/-- The method `createSession` up to the suspension of `initializeSession`
(lines 34-61), in the case where `initializeSession` does not throw.  The
response is `none` while the request waits. -/
def createSessionBegin (c : Controller) (session_id : Option String) :
    Controller × Option Response :=
  if truthy session_id then
    match c.sessions.get (session_id.getD "") with
    | some sock => (c, some (existingResponse (session_id.getD "") sock))
    | none => (initializeSessionBegin (session_id.getD "") c, none)
  else (c, some (.error 400 "session_id requis"))

/-- The rest of `createSession` once `initializeSession` resumes (lines 61-67). -/
def createSessionEnd (c : Controller) (session_id : String) : Controller × Response :=
  (initializeSessionResume session_id c,
   .json [("message", .str "Session créée avec succès"), ("session_id", .str session_id),
          ("status", .str "initializing")])

/-- The method `createSession` when `initializeSession` throws before its
first `await` because `mkdirSync` rejects the path of the credential folder
(lines 78-80): the catch of lines 69-72 answers 500 with the message of the
error, and nothing is registered. -/
def createSessionThrows (c : Controller) (message : String) : Controller × Response :=
  (c, .error 500 message)

/-- A run of `createSession` during which nothing else is scheduled and
`initializeSession` does not throw. -/
def createSession (c : Controller) (session_id : Option String) : Controller × Response :=
  match createSessionBegin c session_id with
  | (c1, some r) => (c1, r)
  | (c1, none) => createSessionEnd c1 (session_id.getD "")

/-- The method `getQR` (lines 238-276). -/
def getQR (c : Controller) (sessionId : String) : Response :=
  match c.sessions.get sessionId with
  | none => .error 404 "Session non trouvée"
  | some sock =>
    if truthy (c.qrCodes.get sessionId) then
      .json [("qr", .str ((c.qrCodes.get sessionId).getD "")), ("status", .str "qr_ready"),
             ("message", .str "Scannez le QR code avec WhatsApp")]
    else
      match sock.user with
      | some u => .json ([("status", .str "connected"),
                          ("message", .str "Session déjà connectée")] ++ identityFields u)
      | none => .json [("status", .str "waiting"), ("message", .str "En attente du QR code...")]

/-- The method `getStatus` (lines 278-304). -/
def getStatus (c : Controller) (sessionId : String) : Response :=
  match c.sessions.get sessionId with
  | none => .json [("status", .str "disconnected")]
  | some sock =>
    match sock.user with
    | some u => .json (("status", .str "connected") :: identityFields u)
    | none => .json [("status", .str (if c.qrCodes.has sessionId then "qr" else "pending"))]

/-- The method `deleteSession` (lines 306-329). -/
def deleteSession (c : Controller) (sessionId : String) : Controller × Response :=
  if c.sessions.has sessionId then
    (removeAuth sessionId (cleanupSession sessionId c),
     .json [("message", .str "Session supprimée avec succès")])
  else (c, .error 404 "Session non trouvée")

/-- The method `logoutSession` (lines 331-362): `logout()` is called on the
socket, and whether it succeeds or throws the session is then cleaned up.  The
call is awaited; the model takes it to be over before anything else is
scheduled. -/
def logoutSession (c : Controller) (sessionId : String) : Controller × Response :=
  match c.sessions.get sessionId with
  | none => (c, .error 404 "Session non trouvée")
  | some sock =>
    (removeAuth sessionId
       (cleanupSession sessionId { c with loggedOut := sock.sockId :: c.loggedOut }),
     .json [("message", .str "Déconnexion réussie")])

/-! ## Sending messages -/

/-- The `contact` object of a send request. -/
structure Contact where
  name : Option String
  number : Option String
deriving DecidableEq, Repr

/-- The body of a send request; a field that is absent is `none`. -/
structure SendBody where
  type : Option String
  session_id : Option String
  rcpt : Option String
  message : Option String
  image : Option String
  video : Option String
  audio : Option String
  document : Option String
  filename : Option String
  caption : Option String
  contact : Option Contact
deriving DecidableEq, Repr

/-- A `Buffer`: decoded from a base64 string, or built from fetched data. -/
inductive Buffer where
  | ofBase64 (s : String)
  | ofData (data : String)
deriving DecidableEq, Repr

/-- The content argument of `sock.sendMessage`. -/
inductive Content where
  | text (text : String)
  | image (image : Buffer) (caption : String)
  | video (video : Buffer) (caption : String)
  | audio (audio : Buffer) (mimetype : String) (ptt : Bool)
  | document (document : Buffer) (fileName : String) (mimetype : String)
  | contacts (displayName : Option String) (vcard : String)
deriving DecidableEq, Repr

/-- One call of `sock.sendMessage(jid, content)` on the socket `sockId`. -/
structure SendCall where
  sockId : Nat
  jid : String
  content : Content
deriving DecidableEq, Repr

/-- The collaborators of the send operations: `sendMessage` of the socket
(the message id, or the message of the error it throws), `axios.get` (the
data, or the message of the error), and the message of the `TypeError` that
the engine throws when property `p` of `undefined` is read. -/
structure Transport where
  sendMessage : Nat → String → Content → Except String String
  axiosGet : String → Except String String
  typeError : String → String

/-- The recipient address (lines 384, 418, 456, 492, 529, 566):
`to.includes('@') ? to : to + '@s.whatsapp.net'`. -/
def jid (rcpt : String) : String :=
  if includes rcpt '@' then rcpt else rcpt ++ "@s.whatsapp.net"

/-- The response of the guard `!sock || !sock.user`. -/
def notConnected : Response := .error 400 "Session non connectée"

/-- The lookup `controller.sessions.get(session_id)` of a send operation. -/
def sockOf (c : Controller) (session_id : Option String) : Option Sock :=
  session_id.bind c.sessions.get

/-- The media of a request: fetched when it starts with `http`, else decoded. -/
def loadBuffer (net : Transport) (src : String) : Except String Buffer :=
  if startsWith src "http" then (net.axiosGet src).map Buffer.ofData
  else .ok (Buffer.ofBase64 src)

/-- The call of `sock.sendMessage` and the response built from its result. -/
def deliver (net : Transport) (sock : Sock) (jid : String) (content : Content)
    (done : String) : Response × List SendCall :=
  match net.sendMessage sock.sockId jid content with
  | .ok messageId =>
    (.json [("success", .bool true), ("message", .str done), ("messageId", .str messageId)],
     [⟨sock.sockId, jid, content⟩])
  | .error e => (.error 500 e, [⟨sock.sockId, jid, content⟩])

/-- The steps shared by the media operations once the socket passed the
guard: the address, then the buffer, then the call. -/
def deliverMedia (net : Transport) (sock : Sock) (rcpt media : Option String)
    (content : Buffer → Content) (done : String) : Response × List SendCall :=
  match rcpt with
  | none => (.error 500 (net.typeError "includes"), [])
  | some r =>
    match media with
    | none => (.error 500 (net.typeError "startsWith"), [])
    | some m =>
      match loadBuffer net m with
      | .error e => (.error 500 e, [])
      | .ok buffer => deliver net sock (jid r) (content buffer) done

/-- The method `sendText` (lines 364-400). -/
def sendText (c : Controller) (net : Transport) (b : SendBody) : Response × List SendCall :=
  if !truthy b.session_id || !truthy b.rcpt || !truthy b.message then
    (.error 400 "session_id, to et message requis", [])
  else
    match sockOf c b.session_id with
    | none => (.error 404 "Session non trouvée", [])
    | some sock =>
      match sock.user with
      | none => (notConnected, [])
      | some _ =>
        deliver net sock (jid (b.rcpt.getD "")) (.text (b.message.getD ""))
          "Message envoyé avec succès"

/-- The method `sendImage` (lines 402-445). -/
def sendImage (c : Controller) (net : Transport) (b : SendBody) : Response × List SendCall :=
  if !truthy b.session_id || !truthy b.rcpt || !truthy b.image then
    (.error 400 "session_id, to et image requis", [])
  else
    match sockOf c b.session_id with
    | none => (notConnected, [])
    | some sock =>
      match sock.user with
      | none => (notConnected, [])
      | some _ =>
        deliverMedia net sock b.rcpt b.image (fun buffer => .image buffer (orElse b.caption ""))
          "Image envoyée avec succès"

/-- The method `sendVideo` (lines 447-481). -/
def sendVideo (c : Controller) (net : Transport) (b : SendBody) : Response × List SendCall :=
  match sockOf c b.session_id with
  | none => (notConnected, [])
  | some sock =>
    match sock.user with
    | none => (notConnected, [])
    | some _ =>
      deliverMedia net sock b.rcpt b.video (fun buffer => .video buffer (orElse b.caption ""))
        "Vidéo envoyée avec succès"

/-- The method `sendAudio` (lines 483-518). -/
def sendAudio (c : Controller) (net : Transport) (b : SendBody) : Response × List SendCall :=
  match sockOf c b.session_id with
  | none => (notConnected, [])
  | some sock =>
    match sock.user with
    | none => (notConnected, [])
    | some _ =>
      deliverMedia net sock b.rcpt b.audio (fun buffer => .audio buffer "audio/mp4" true)
        "Audio envoyé avec succès"

/-- The method `sendDocument` (lines 520-555). -/
def sendDocument (c : Controller) (net : Transport) (b : SendBody) :
    Response × List SendCall :=
  match sockOf c b.session_id with
  | none => (notConnected, [])
  | some sock =>
    match sock.user with
    | none => (notConnected, [])
    | some _ =>
      deliverMedia net sock b.rcpt b.document
        (fun buffer => .document buffer (orElse b.filename "document.pdf") "application/pdf")
        "Document envoyé avec succès"

/-- A value interpolated in a template literal; `undefined` prints as such. -/
def interpolate (v : Option String) : String := v.getD "undefined"

/-- The vCard of a contact (lines 568-572). -/
def vcard (contact : Contact) : String :=
  "BEGIN:VCARD\nVERSION:3.0\nFN:" ++ interpolate contact.name ++
    "\nTEL;type=CELL;type=VOICE;waid=" ++ interpolate contact.number ++ ":" ++
    interpolate contact.number ++ "\nEND:VCARD"

/-- The method `sendContact` (lines 557-591). -/
def sendContact (c : Controller) (net : Transport) (b : SendBody) :
    Response × List SendCall :=
  match sockOf c b.session_id with
  | none => (notConnected, [])
  | some sock =>
    match sock.user with
    | none => (notConnected, [])
    | some _ =>
      match b.rcpt with
      | none => (.error 500 (net.typeError "includes"), [])
      | some r =>
        match b.contact with
        | none => (.error 500 (net.typeError "name"), [])
        | some contact =>
          deliver net sock (jid r) (.contacts contact.name (vcard contact))
            "Contact envoyé avec succès"

/-- The six kinds of send operation. -/
inductive SendKind where
  | text
  | image
  | video
  | audio
  | document
  | contact
deriving DecidableEq, Repr

/-- The send operation of each kind. -/
def send (k : SendKind) (c : Controller) (net : Transport) (b : SendBody) :
    Response × List SendCall :=
  match k with
  | .text => sendText c net b
  | .image => sendImage c net b
  | .video => sendVideo c net b
  | .audio => sendAudio c net b
  | .document => sendDocument c net b
  | .contact => sendContact c net b

/-- Whether the session of a request is registered with a socket that has a
user identity. -/
def isConnected (c : Controller) (session_id : Option String) : Bool :=
  match sockOf c session_id with
  | some sock => sock.user.isSome
  | none => false

/-- The method `sendMessage` (lines 593-612): the dispatch on `type`. -/
def sendMessage (c : Controller) (net : Transport) (b : SendBody) : Response × List SendCall :=
  match b.type with
  | some "text" => sendText c net b
  | some "image" => sendImage c net b
  | some "video" => sendVideo c net b
  | some "audio" => sendAudio c net b
  | some "document" => sendDocument c net b
  | some "contact" => sendContact c net b
  | _ => (.error 400 "Type non supporté", [])

/-! ## Executions

What can happen to a controller, one uninterrupted piece of JavaScript at a
time: a request arrives, a suspended call resumes, or a socket made
for a session emits a `connection.update` event. -/

/-- The Transport Client records the identity of the account on the socket
registered for `sessionId` when the connection of that socket opens. -/
def recordIdentity (sessionId : String) (user : User) (c : Controller) : Controller :=
  match c.sessions.get sessionId with
  | some sock => { c with sessions := c.sessions.set sessionId { sock with user := some user } }
  | none => c

/-- The pieces of execution.

* `create`: a create request, up to its suspension in `initializeSession`.
* `resume`: an `initializeSession` suspended for the session resumes.
* `delete`, `logout`: the two removal requests.
* `pairing`: a socket made for the session emits a pairing code.
* `opened`: the socket registered for the session reports an open connection
  for `user`.
* `openedElsewhere`: a socket made for the session that is not the registered
  one reports an open connection.
* `closed`: a socket made for the session reports a close.
* `delayOver`: the retry delay of a close handler of the session is over. -/
inductive Action where
  | create (session_id : Option String)
  | resume (sessionId : String)
  | delete (sessionId : String)
  | logout (sessionId : String)
  | pairing (sessionId : String) (qr : String)
  | opened (sessionId : String) (user : User)
  | openedElsewhere (sessionId : String)
  | closed (sessionId : String) (lastDisconnect : Option DisconnectError)
  | delayOver (sessionId : String)
deriving DecidableEq, Repr

/-- When a piece of execution can happen.  Requests can always arrive.  A
suspended call resumes only if it is suspended.  An event of a session can be
handled at any time once a socket was made for the session: the handler is a
closure over the session id and does not look at the registry, a socket that
was replaced or ended keeps its handlers, and an event whose pairing code was
being rendered is handled when the rendering is over. -/
def enabled (c : Controller) : Action → Bool
  | .create _ => true
  | .resume sessionId => c.inits.contains sessionId
  | .delete _ => true
  | .logout _ => true
  | .pairing sessionId _ => c.handlers.contains sessionId
  | .opened sessionId _ => c.handlers.contains sessionId
  | .openedElsewhere sessionId => c.handlers.contains sessionId
  | .closed sessionId _ => c.handlers.contains sessionId
  | .delayOver sessionId => c.timers.contains sessionId

/-- The effect of a piece of execution on the controller. -/
def step (dr : DisconnectReason) (render : String → Option String) (c : Controller) :
    Action → Controller
  | .create session_id => (createSessionBegin c session_id).1
  | .resume sessionId => initializeSessionResume sessionId c
  | .delete sessionId => (deleteSession c sessionId).1
  | .logout sessionId => (logoutSession c sessionId).1
  | .pairing sessionId qr => connectionUpdate dr render sessionId (.pairing qr) c
  | .opened sessionId user =>
    connectionUpdate dr render sessionId .isOpen (recordIdentity sessionId user c)
  | .openedElsewhere sessionId => connectionUpdate dr render sessionId .isOpen c
  | .closed sessionId lastDisconnect =>
    connectionUpdate dr render sessionId (.closed lastDisconnect) c
  | .delayOver sessionId => afterDelayBegin sessionId c

/-- The run of a list of pieces of execution; `none` when one of them cannot
happen in the state reached. -/
def run (dr : DisconnectReason) (render : String → Option String) :
    Controller → List Action → Option Controller
  | c, [] => some c
  | c, a :: rest => if enabled c a then run dr render (step dr render c a) rest else none

/-- The states reachable from the new controller. -/
def Reachable (dr : DisconnectReason) (render : String → Option String) (c : Controller) :
    Prop :=
  ∃ actions, run dr render Controller.init actions = some c

/-- A session is waiting out a retry delay. -/
def reconnecting (c : Controller) (sessionId : String) : Bool := c.timers.contains sessionId

/-- A session is connected: it is registered with a socket that has identity. -/
def connected (c : Controller) (sessionId : String) : Bool :=
  match c.sessions.get sessionId with
  | some sock => sock.user.isSome
  | none => false

/-- A session is erased: it has no entry in any of the four maps and its
credential folder does not exist. -/
def erased (c : Controller) (sessionId : String) : Prop :=
  c.sessions.get sessionId = none ∧ c.stores.get sessionId = none ∧
    c.qrCodes.get sessionId = none ∧ c.retries.get sessionId = none ∧
    sessionId ∉ c.authDirs

/-- A close event whose status code is not one of `doNotReconnect`. -/
def transientClose (dr : DisconnectReason) (update : Update) : Prop :=
  update.connection = some .close ∧
    (doNotReconnect dr).contains (statusCode update.lastDisconnect) = false

/-- A close event whose status code is one of `doNotReconnect`. -/
def terminalClose (dr : DisconnectReason) (update : Update) : Prop :=
  update.connection = some .close ∧
    (doNotReconnect dr).contains (statusCode update.lastDisconnect) = true

instance (dr : DisconnectReason) (update : Update) : Decidable (transientClose dr update) := by
  unfold transientClose; infer_instance

instance (dr : DisconnectReason) (update : Update) : Decidable (terminalClose dr update) := by
  unfold terminalClose; infer_instance

/-- The response of `sendText` when a required field is missing. -/
def textRequired : Response := .error 400 "session_id, to et message requis"

/-- The response of `sendImage` when a required field is missing. -/
def imageRequired : Response := .error 400 "session_id, to et image requis"

/-- The response of `sendText` for a session that is not registered. -/
def notFound : Response := .error 404 "Session non trouvée"

/-- A send request for session "A" with recipient and text. -/
def textToA : SendBody :=
  { type := some "text", session_id := some "A", rcpt := some "15551234567",
    message := some "bonjour", image := none, video := none, audio := none,
    document := none, filename := none, caption := none, contact := none }

/-- A transport whose calls all succeed. -/
def idleTransport : Transport :=
  { sendMessage := fun _ _ _ => .ok "MSG1", axiosGet := fun _ => .ok "", typeError := fun p => p }

/-- The suffix that `jid` appends to a bare recipient. -/
def domainSuffix : String := "@s.whatsapp.net"

/-- The state after two create requests for "A", the second of which arrives
while the `initializeSession` of the first is suspended, and after both
initialisations have resumed. -/
def twoCreates : Controller :=
  (createSessionEnd
    (createSessionEnd
      (createSessionBegin (createSessionBegin .init (some "A")).1 (some "A")).1 "A").1 "A").1

/-- The response of `getQR` that carries the cached pairing artifact. -/
def qrReady (qr : String) : Response :=
  .json [("qr", .str qr), ("status", .str "qr_ready"),
         ("message", .str "Scannez le QR code avec WhatsApp")]

/-- The response of `getQR` for a registered session without cached artifact. -/
def qrAbsent (sock : Sock) : Response :=
  match sock.user with
  | some u => .json ([("status", .str "connected"),
                      ("message", .str "Session déjà connectée")] ++ identityFields u)
  | none => .json [("status", .str "waiting"), ("message", .str "En attente du QR code...")]

/-- A renderer that succeeds on every code. -/
def echoRender : String → Option String := fun qr => some qr

/-- The empty string is not the id of a registered session, of a suspended
initialisation, of a waiting close handler or of a socket. -/
def IdsInv (c : Controller) : Prop :=
  c.sessions.get "" = none ∧ "" ∉ c.inits ∧ "" ∉ c.timers ∧ "" ∉ c.handlers

/-- An execution: session "A" is created, receives a pairing code, and its
connection closes with code 408 (connection lost). -/
def pairThenClose : List Action :=
  [.create (some "A"), .resume "A", .pairing "A" "2@abc", .closed "A" (some (.boom 408))]

/-- An execution: session "A" is created, its connection closes with code 408
(connection lost), and it is deleted during the retry delay. -/
def closeThenDelete : List Action :=
  [.create (some "A"), .resume "A", .closed "A" (some (.boom 408)), .delete "A"]

/-- The state after session "A" was created and received a pairing code. -/
def awaitingPairing : Controller :=
  step .baileys echoRender
    (step .baileys echoRender (step .baileys echoRender .init (.create (some "A")))
      (.resume "A")) (.pairing "A" "2@abc")

/-- The state after session "A" was created and opened for an account. -/
def openedA : Controller :=
  step .baileys echoRender
    (step .baileys echoRender (step .baileys echoRender .init (.create (some "A")))
      (.resume "A")) (.opened "A" ⟨"15551234567:12@s.whatsapp.net", some "Ana"⟩)

/-- The response of `getStatus` for a session that is not registered. -/
def statusDisconnected : Response := .json [("status", .str "disconnected")]

/-- The response of `getStatus` for a socket with the identity `u`. -/
def statusConnected (u : User) : Response :=
  .json (("status", .str "connected") :: identityFields u)

/-- The response of `getStatus` for a registered socket without identity. -/
def statusUnpaired (cached : Bool) : Response :=
  .json [("status", .str (if cached then "qr" else "pending"))]

/-- The state after session "B" was created on a new controller. -/
def createdB : Controller := (createSession .init (some "B")).1

/-- The entries of session `b` in the four maps are the same in `c` and `c'`. -/
def sameEntries (b : String) (c c' : Controller) : Prop :=
  c'.sessions.get b = c.sessions.get b ∧ c'.stores.get b = c.stores.get b ∧
    c'.qrCodes.get b = c.qrCodes.get b ∧ c'.retries.get b = c.retries.get b

/-- The session that a piece of execution is about; `none` for a create
request without session id. -/
def Action.session : Action → Option String
  | .create session_id => session_id
  | .resume sessionId => some sessionId
  | .delete sessionId => some sessionId
  | .logout sessionId => some sessionId
  | .pairing sessionId _ => some sessionId
  | .opened sessionId _ => some sessionId
  | .openedElsewhere sessionId => some sessionId
  | .closed sessionId _ => some sessionId
  | .delayOver sessionId => some sessionId

/-- The state in which sessions "A" and "B" are registered, "B" with a cached
pairing artifact and one retry made. -/
def twoSessions : Controller :=
  { (createSession (createSession .init (some "A")).1 (some "B")).1 with
    qrCodes := ⟨[("B", "data:image/png;base64,QkI=")]⟩, retries := ⟨[("B", 1)]⟩ }

/-- The state after session "A" was created on a new controller. -/
def createdA : Controller := (createSession .init (some "A")).1

/-- An execution: session "A" is created, is deleted, and a pairing code that
its socket emitted before the deletion is handled once its rendering is over. -/
def deleteThenPairing : List Action :=
  [.create (some "A"), .resume "A", .delete "A", .pairing "A" "2@abc"]

/-- An execution: two create requests for "A" interleave, the registered
socket opens for an account, and the other socket emits a pairing code. -/
def openThenPairing : List Action :=
  [.create (some "A"), .create (some "A"), .resume "A", .resume "A",
   .opened "A" ⟨"15551234567:12@s.whatsapp.net", none⟩, .pairing "A" "2@abc"]

/-! ## Lemmas on maps -/

namespace JsMap

variable {α : Type}

theorem lookup_insert_self (l : List (String × α)) (k : String) (v : α) :
    lookup (insert l k v) k = some v := by
  induction l with
  | nil => simp [insert, lookup]
  | cons e rest ih =>
    obtain ⟨k', v'⟩ := e
    by_cases h : k' = k <;> simp [insert, lookup, h, ih]

theorem lookup_insert_ne (l : List (String × α)) {k j : String} (v : α) (h : j ≠ k) :
    lookup (insert l k v) j = lookup l j := by
  induction l with
  | nil => simp [insert, lookup, Ne.symm h]
  | cons e rest ih =>
    obtain ⟨k', v'⟩ := e
    by_cases hk : k' = k
    · subst hk
      simp [insert, lookup, Ne.symm h]
    · by_cases hj : k' = j
      · subst hj
        simp [insert, lookup, hk]
      · simp [insert, lookup, hk, hj, ih]

theorem lookup_remove_self (l : List (String × α)) (k : String) :
    lookup (remove l k) k = none := by
  induction l with
  | nil => simp [remove, lookup]
  | cons e rest ih =>
    obtain ⟨k', v'⟩ := e
    by_cases h : k' = k <;> simp [remove, lookup, h, ih]

theorem lookup_remove_ne (l : List (String × α)) {k j : String} (h : j ≠ k) :
    lookup (remove l k) j = lookup l j := by
  induction l with
  | nil => simp [remove, lookup]
  | cons e rest ih =>
    obtain ⟨k', v'⟩ := e
    by_cases hk : k' = k
    · subst hk
      simp [remove, lookup, Ne.symm h, ih]
    · by_cases hj : k' = j
      · subst hj
        simp [remove, lookup, hk]
      · simp [remove, lookup, hk, hj, ih]

@[simp]
theorem get_empty (k : String) : (empty : JsMap α).get k = none := rfl

@[simp]
theorem get_set_self (m : JsMap α) (k : String) (v : α) :
    (m.set k v).get k = some v := lookup_insert_self m.entries k v

theorem get_set_ne (m : JsMap α) {k j : String} (v : α) (h : j ≠ k) :
    (m.set k v).get j = m.get j := lookup_insert_ne m.entries v h

@[simp]
theorem get_delete_self (m : JsMap α) (k : String) :
    (m.delete k).get k = none := lookup_remove_self m.entries k

theorem get_delete_ne (m : JsMap α) {k j : String} (h : j ≠ k) :
    (m.delete k).get j = m.get j := lookup_remove_ne m.entries h

theorem get_set (m : JsMap α) (k j : String) (v : α) :
    (m.set k v).get j = if j = k then some v else m.get j := by
  by_cases h : j = k
  · subst h; simp
  · simp [h, get_set_ne]

theorem get_delete (m : JsMap α) (k j : String) :
    (m.delete k).get j = if j = k then none else m.get j := by
  by_cases h : j = k
  · subst h; simp
  · simp [h, get_delete_ne]

end JsMap

/-! ## Lemmas on cleanup -/

theorem cleanupSession_sessions (sessionId : String) (c : Controller) :
    (cleanupSession sessionId c).sessions = c.sessions.delete sessionId ∨
      ((cleanupSession sessionId c).sessions = c.sessions ∧ c.sessions.get sessionId = none) := by
  unfold cleanupSession
  cases h : c.sessions.get sessionId <;> simp

theorem cleanupSession_get_sessions (sessionId j : String) (c : Controller) :
    (cleanupSession sessionId c).sessions.get j =
      if j = sessionId then none else c.sessions.get j := by
  rcases cleanupSession_sessions sessionId c with h | ⟨h, hn⟩
  · rw [h, JsMap.get_delete]
  · rw [h]
    by_cases hj : j = sessionId
    · subst hj; simp [hn]
    · simp [hj]

@[simp]
theorem cleanupSession_stores (sessionId : String) (c : Controller) :
    (cleanupSession sessionId c).stores = c.stores.delete sessionId := by
  unfold cleanupSession
  cases h : c.sessions.get sessionId <;> simp

@[simp]
theorem cleanupSession_qrCodes (sessionId : String) (c : Controller) :
    (cleanupSession sessionId c).qrCodes = c.qrCodes.delete sessionId := by
  unfold cleanupSession
  cases h : c.sessions.get sessionId <;> simp

@[simp]
theorem cleanupSession_retries (sessionId : String) (c : Controller) :
    (cleanupSession sessionId c).retries = c.retries.delete sessionId := by
  unfold cleanupSession
  cases h : c.sessions.get sessionId <;> simp

@[simp]
theorem cleanupSession_authDirs (sessionId : String) (c : Controller) :
    (cleanupSession sessionId c).authDirs = c.authDirs := by
  unfold cleanupSession
  cases h : c.sessions.get sessionId <;> simp

@[simp]
theorem cleanupSession_sockets (sessionId : String) (c : Controller) :
    (cleanupSession sessionId c).sockets = c.sockets := by
  unfold cleanupSession
  cases h : c.sessions.get sessionId <;> simp

@[simp]
theorem cleanupSession_inits (sessionId : String) (c : Controller) :
    (cleanupSession sessionId c).inits = c.inits := by
  unfold cleanupSession
  cases h : c.sessions.get sessionId <;> simp

@[simp]
theorem cleanupSession_handlers (sessionId : String) (c : Controller) :
    (cleanupSession sessionId c).handlers = c.handlers := by
  unfold cleanupSession
  cases h : c.sessions.get sessionId <;> simp

@[simp]
theorem cleanupSession_timers (sessionId : String) (c : Controller) :
    (cleanupSession sessionId c).timers = c.timers := by
  unfold cleanupSession
  cases h : c.sessions.get sessionId <;> simp

/-- After a cleanup followed by the removal of the credential folder, the
session is erased. -/
theorem erased_removeAuth_cleanupSession (sessionId : String) (c : Controller) :
    erased (removeAuth sessionId (cleanupSession sessionId c)) sessionId := by
  refine ⟨?_, ?_, ?_, ?_, ?_⟩
  · show (cleanupSession sessionId c).sessions.get sessionId = none
    rw [cleanupSession_get_sessions]; simp
  · show (cleanupSession sessionId c).stores.get sessionId = none
    simp
  · show (cleanupSession sessionId c).qrCodes.get sessionId = none
    simp
  · show (cleanupSession sessionId c).retries.get sessionId = none
    simp
  · simp [removeAuth]

/-! ## Lemmas on the handler -/

@[simp]
theorem qrBranch_sessions (render : String → Option String) (sessionId : String)
    (qr : Option String) (c : Controller) :
    (qrBranch render sessionId qr c).sessions = c.sessions := by
  unfold qrBranch; split
  · split <;> rfl
  · rfl

@[simp]
theorem qrBranch_stores (render : String → Option String) (sessionId : String)
    (qr : Option String) (c : Controller) :
    (qrBranch render sessionId qr c).stores = c.stores := by
  unfold qrBranch; split
  · split <;> rfl
  · rfl

@[simp]
theorem qrBranch_retries (render : String → Option String) (sessionId : String)
    (qr : Option String) (c : Controller) :
    (qrBranch render sessionId qr c).retries = c.retries := by
  unfold qrBranch; split
  · split <;> rfl
  · rfl

@[simp]
theorem qrBranch_authDirs (render : String → Option String) (sessionId : String)
    (qr : Option String) (c : Controller) :
    (qrBranch render sessionId qr c).authDirs = c.authDirs := by
  unfold qrBranch; split
  · split <;> rfl
  · rfl

@[simp]
theorem qrBranch_sockets (render : String → Option String) (sessionId : String)
    (qr : Option String) (c : Controller) :
    (qrBranch render sessionId qr c).sockets = c.sockets := by
  unfold qrBranch; split
  · split <;> rfl
  · rfl

@[simp]
theorem qrBranch_inits (render : String → Option String) (sessionId : String)
    (qr : Option String) (c : Controller) :
    (qrBranch render sessionId qr c).inits = c.inits := by
  unfold qrBranch; split
  · split <;> rfl
  · rfl

@[simp]
theorem qrBranch_timers (render : String → Option String) (sessionId : String)
    (qr : Option String) (c : Controller) :
    (qrBranch render sessionId qr c).timers = c.timers := by
  unfold qrBranch; split
  · split <;> rfl
  · rfl

@[simp]
theorem qrBranch_ended (render : String → Option String) (sessionId : String)
    (qr : Option String) (c : Controller) :
    (qrBranch render sessionId qr c).ended = c.ended := by
  unfold qrBranch; split
  · split <;> rfl
  · rfl

@[simp]
theorem qrBranch_handlers (render : String → Option String) (sessionId : String)
    (qr : Option String) (c : Controller) :
    (qrBranch render sessionId qr c).handlers = c.handlers := by
  unfold qrBranch; split
  · split <;> rfl
  · rfl

@[simp]
theorem qrBranch_loggedOut (render : String → Option String) (sessionId : String)
    (qr : Option String) (c : Controller) :
    (qrBranch render sessionId qr c).loggedOut = c.loggedOut := by
  unfold qrBranch; split
  · split <;> rfl
  · rfl

@[simp]
theorem retryCount_qrBranch (render : String → Option String) (sessionId : String)
    (qr : Option String) (c : Controller) :
    retryCount sessionId (qrBranch render sessionId qr c) = retryCount sessionId c := by
  simp [retryCount]

/-- The state in which a transient close with fewer than two retries leaves
the handler waiting. -/
theorem connectionUpdate_retry (dr : DisconnectReason) (render : String → Option String)
    (sessionId : String) (update : Update) (c : Controller)
    (ht : transientClose dr update) (hr : retryCount sessionId c < 2) :
    connectionUpdate dr render sessionId update c =
      { qrBranch render sessionId update.qr c with
        retries := c.retries.set sessionId (retryCount sessionId c + 1),
        timers := sessionId :: c.timers } := by
  obtain ⟨hc, hcode⟩ := ht
  have hcode' : statusCode update.lastDisconnect ∉ doNotReconnect dr := by simpa using hcode
  simp [connectionUpdate, hc, closeBranch, hcode', hr]

/-- The handler run to its end on a transient close with fewer than two
retries. -/
theorem handleUpdate_retry (dr : DisconnectReason) (render : String → Option String)
    (sessionId : String) (update : Update) (c : Controller)
    (ht : transientClose dr update) (hr : retryCount sessionId c < 2) :
    handleUpdate dr render sessionId update c =
      afterDelay sessionId (connectionUpdate dr render sessionId update c) := by
  obtain ⟨hc, hcode⟩ := ht
  have hcode' : statusCode update.lastDisconnect ∉ doNotReconnect dr := by simpa using hcode
  simp [handleUpdate, suspends, hc, hcode', hr]

/-- The handler on a close that is not retried: cleanup and erasure. -/
theorem handleUpdate_stop (dr : DisconnectReason) (render : String → Option String)
    (sessionId : String) (update : Update) (c : Controller)
    (hc : update.connection = some .close)
    (hs : (doNotReconnect dr).contains (statusCode update.lastDisconnect) = true ∨
      ¬ retryCount sessionId c < 2) :
    handleUpdate dr render sessionId update c =
        removeAuth sessionId (cleanupSession sessionId (qrBranch render sessionId update.qr c)) ∧
      connectionUpdate dr render sessionId update c =
        removeAuth sessionId (cleanupSession sessionId (qrBranch render sessionId update.qr c)) := by
  by_cases hcode : statusCode update.lastDisconnect ∈ doNotReconnect dr
  · simp [handleUpdate, suspends, connectionUpdate, closeBranch, hc, hcode]
  · have hr : ¬ retryCount sessionId c < 2 := by
      rcases hs with hs | hs
      · exact absurd (by simpa using hs) hcode
      · exact hs
    simp [handleUpdate, suspends, connectionUpdate, closeBranch, hc, hcode, hr]

/-- The state at the end of the handler on a transient close with fewer than
two retries: the count is incremented and a new socket is registered. -/
theorem handleUpdate_retry_state (dr : DisconnectReason) (render : String → Option String)
    (sessionId : String) (update : Update) (c : Controller)
    (ht : transientClose dr update) (hr : retryCount sessionId c < 2) :
    handleUpdate dr render sessionId update c =
      { qrBranch render sessionId update.qr c with
        retries := c.retries.set sessionId (retryCount sessionId c + 1),
        stores := c.stores.set sessionId ⟨c.sockets⟩,
        sessions := c.sessions.set sessionId { sockId := c.sockets, user := none },
        sockets := c.sockets + 1,
        handlers := sessionId :: c.handlers,
        authDirs := if c.authDirs.contains sessionId then c.authDirs
                    else sessionId :: c.authDirs } := by
  rw [handleUpdate_retry dr render sessionId update c ht hr,
    connectionUpdate_retry dr render sessionId update c ht hr]
  simp [afterDelay, afterDelayBegin, initializeSessionBegin, initializeSessionResume]

/-- The handler on an update that carries a pairing code only. -/
theorem handleUpdate_pairing_eq (dr : DisconnectReason) (render : String → Option String)
    (sessionId qr : String) (c : Controller) :
    handleUpdate dr render sessionId (.pairing qr) c = qrBranch render sessionId (some qr) c := by
  simp [handleUpdate, suspends, connectionUpdate, Update.pairing]

/-- A create request for an id that is not registered initialises the session. -/
theorem createSession_new (c : Controller) (sessionId : String) (hid : sessionId ≠ "")
    (hnew : c.sessions.get sessionId = none) :
    createSession c (some sessionId) =
      (initializeSession sessionId c,
       .json [("message", .str "Session créée avec succès"), ("session_id", .str sessionId),
              ("status", .str "initializing")]) := by
  simp [createSession, createSessionBegin, truthy, hid, hnew, createSessionEnd,
    initializeSession]

/-! ## The retry bound -/

/-- The retry bound, for any values of the three constants: a close whose
status code is outside `doNotReconnect`, handled with a stored retry count
`r < 2`, sets the count to `r + 1`, leaves the registration untouched while
the handler waits, and registers a new socket when the delay is over; handled
with a count of 2 it erases the session.  From a newly created session,
whether or not it has received a pairing code, two consecutive closes of that
kind are therefore retried and the third one erases the session. -/
theorem transient_close_retry_bound (dr : DisconnectReason) (render : String → Option String)
    (sessionId : String) :
    (∀ (c : Controller) (update : Update), transientClose dr update →
      retryCount sessionId c < 2 →
      (connectionUpdate dr render sessionId update c).retries.get sessionId =
          some (retryCount sessionId c + 1) ∧
        (connectionUpdate dr render sessionId update c).sessions = c.sessions ∧
        (connectionUpdate dr render sessionId update c).timers = sessionId :: c.timers ∧
        (handleUpdate dr render sessionId update c).retries.get sessionId =
          some (retryCount sessionId c + 1) ∧
        (handleUpdate dr render sessionId update c).sessions.get sessionId =
          some { sockId := c.sockets, user := none } ∧
        (handleUpdate dr render sessionId update c).sockets = c.sockets + 1 ∧
        (handleUpdate dr render sessionId update c).timers = c.timers) ∧
    (∀ (c : Controller) (update : Update), transientClose dr update →
      retryCount sessionId c = 2 →
      erased (handleUpdate dr render sessionId update c) sessionId ∧
        handleUpdate dr render sessionId update c =
          connectionUpdate dr render sessionId update c ∧
        (handleUpdate dr render sessionId update c).sockets = c.sockets ∧
        (handleUpdate dr render sessionId update c).timers = c.timers) ∧
    (∀ (c s : Controller) (u1 u2 u3 : Update), sessionId ≠ "" →
      c.sessions.get sessionId = none → c.retries.get sessionId = none →
      (s = (createSession c (some sessionId)).1 ∨
        ∃ qr, s = handleUpdate dr render sessionId (.pairing qr)
          (createSession c (some sessionId)).1) →
      transientClose dr u1 → transientClose dr u2 → transientClose dr u3 →
      (s.sessions.has sessionId = true ∧
       ((handleUpdate dr render sessionId u1 s).sessions.has sessionId = true ∧
        (handleUpdate dr render sessionId u1 s).retries.get sessionId = some 1) ∧
       ((handleUpdate dr render sessionId u2
          (handleUpdate dr render sessionId u1 s)).sessions.has sessionId = true ∧
        (handleUpdate dr render sessionId u2
          (handleUpdate dr render sessionId u1 s)).retries.get sessionId = some 2) ∧
       erased (handleUpdate dr render sessionId u3
          (handleUpdate dr render sessionId u2
            (handleUpdate dr render sessionId u1 s))) sessionId)) := by
  refine ⟨?_, ?_, ?_⟩
  · intro c update ht hr
    rw [handleUpdate_retry_state dr render sessionId update c ht hr,
      connectionUpdate_retry dr render sessionId update c ht hr]
    simp
  · intro c update ht hr
    have hn : ¬ retryCount sessionId c < 2 := by omega
    obtain ⟨h1, h2⟩ := handleUpdate_stop dr render sessionId update c ht.1 (Or.inr hn)
    refine ⟨?_, ?_, ?_, ?_⟩
    · rw [h1]; exact erased_removeAuth_cleanupSession _ _
    · rw [h1, h2]
    · rw [h1]; simp [removeAuth]
    · rw [h1]; simp [removeAuth]
  · intro c s u1 u2 u3 hid hnew hret hs h1 h2 h3
    rw [createSession_new c sessionId hid hnew] at hs
    have hreg : s.sessions.has sessionId = true ∧ retryCount sessionId s = 0 := by
      rcases hs with hs | ⟨qr, hs⟩
      · rw [hs]
        simp [JsMap.has, retryCount, initializeSession, initializeSessionBegin,
          initializeSessionResume, hret]
      · rw [hs, handleUpdate_pairing_eq]
        simp [JsMap.has, retryCount, initializeSession, initializeSessionBegin,
          initializeSessionResume, hret]
    obtain ⟨hreg, r0⟩ := hreg
    have e1 := handleUpdate_retry_state dr render sessionId u1 s h1 (by rw [r0]; decide)
    rw [r0] at e1
    generalize handleUpdate dr render sessionId u1 s = s1 at e1 ⊢
    have r1 : retryCount sessionId s1 = 1 := by rw [e1]; simp [retryCount]
    have e2 := handleUpdate_retry_state dr render sessionId u2 s1 h2 (by rw [r1]; decide)
    rw [r1] at e2
    generalize handleUpdate dr render sessionId u2 s1 = s2 at e2 ⊢
    have r2 : retryCount sessionId s2 = 2 := by rw [e2]; simp [retryCount]
    obtain ⟨e3, -⟩ := handleUpdate_stop dr render sessionId u3 s2 h3.1
      (Or.inr (by rw [r2]; decide))
    refine ⟨hreg, ⟨?_, ?_⟩, ⟨?_, ?_⟩, ?_⟩
    · rw [e1]; simp [JsMap.has]
    · rw [e1]; simp
    · rw [e2]; simp [JsMap.has]
    · rw [e2]; simp
    · rw [e3]; exact erased_removeAuth_cleanupSession _ _

/-- C1 fails on the code: an error that is not a Boom gets the status code
500, which is the value of `DisconnectReason.badSession`, one of the codes of
`doNotReconnect`.  The first close of that kind on the newly created session
"A" is therefore not retried: the handler does not wait, no socket is made and
the session is erased with its credential folder.  With the value 400 that the
comment of line 156 gives for `badSession`, the same close would be retried. -/
theorem non_boom_close_not_retried :
    statusCode none = 500 ∧ statusCode (some .other) = 500 ∧
      DisconnectReason.baileys.badSession = 500 ∧
      terminalClose .baileys (.closed none) ∧
      terminalClose .baileys (.closed (some .other)) ∧
      terminalClose .baileys (.closed (some (.boom 500))) ∧
      erased (handleUpdate .baileys echoRender "A" (.closed none) createdA) "A" ∧
      (handleUpdate .baileys echoRender "A" (.closed none) createdA).timers = [] ∧
      (handleUpdate .baileys echoRender "A" (.closed none) createdA).sockets = 1 ∧
      (handleUpdate .baileys echoRender "A" (.closed none) createdA).retries.get "A" = none ∧
      transientClose .commented (.closed none) ∧
      (handleUpdate .commented echoRender "A" (.closed none) createdA).retries.get "A" =
        some 1 ∧
      (handleUpdate .commented echoRender "A" (.closed none) createdA).sessions.get "A" =
        some { sockId := 1, user := none } := by
  refine ⟨rfl, rfl, rfl, by decide, by decide, by decide, ?_, by decide, by decide,
    by decide, by decide, by decide, by decide⟩
  unfold erased
  decide

/-! ## Terminal closes -/

/-- Terminal closes, for any values of the three constants: a close whose
status code is one of `doNotReconnect` is handled in one event, whatever the
stored retry count: the handler does not wait and no socket is made, and
afterwards the session has no entry in the sessions, stores, pairing-code and
retry maps and no credential folder, so that the pairing-status request
answers 404 and the status request answers disconnected. -/
theorem terminal_close_erases (dr : DisconnectReason) (render : String → Option String)
    (sessionId : String) (update : Update) (c : Controller)
    (ht : terminalClose dr update) :
    handleUpdate dr render sessionId update c =
        connectionUpdate dr render sessionId update c ∧
      (handleUpdate dr render sessionId update c).timers = c.timers ∧
      (handleUpdate dr render sessionId update c).inits = c.inits ∧
      (handleUpdate dr render sessionId update c).sockets = c.sockets ∧
      erased (handleUpdate dr render sessionId update c) sessionId ∧
      (handleUpdate dr render sessionId update c).sessions.has sessionId = false ∧
      getQR (handleUpdate dr render sessionId update c) sessionId =
        .error 404 "Session non trouvée" ∧
      getStatus (handleUpdate dr render sessionId update c) sessionId =
        .json [("status", .str "disconnected")] := by
  obtain ⟨h1, h2⟩ := handleUpdate_stop dr render sessionId update c ht.1 (Or.inl ht.2)
  have he := erased_removeAuth_cleanupSession sessionId
    (qrBranch render sessionId update.qr c)
  rw [← h1] at he
  refine ⟨by rw [h1, h2], ?_, ?_, ?_, he, ?_, ?_, ?_⟩
  · rw [h1]; simp [removeAuth]
  · rw [h1]; simp [removeAuth]
  · rw [h1]; simp [removeAuth]
  · simp [JsMap.has, he.1]
  · simp [getQR, he.1]
  · simp [getStatus, he.1]

/-- C2 fails on the code: the code 400, which the comment of line 156 lists
as the bad-session code that must not reconnect, is not one of the values of
`doNotReconnect`, because `DisconnectReason.badSession` is 500.  A close with
a Boom of status code 400 on the newly created session "A" is therefore
retried: the count becomes 1, the handler waits, and a second socket is
registered when the delay is over.  Closes with the codes 401 and 440 are
terminal, and with the value 400 of the comment the close would erase the
session. -/
theorem bad_request_close_is_retried :
    DisconnectReason.baileys.badSession = 500 ∧
      doNotReconnect .baileys = [401, 500, 440] ∧
      transientClose .baileys (.closed (some (.boom 400))) ∧
      (connectionUpdate .baileys echoRender "A" (.closed (some (.boom 400))) createdA
        ).timers = ["A"] ∧
      (handleUpdate .baileys echoRender "A" (.closed (some (.boom 400))) createdA
        ).retries.get "A" = some 1 ∧
      (handleUpdate .baileys echoRender "A" (.closed (some (.boom 400))) createdA
        ).sessions.get "A" = some { sockId := 1, user := none } ∧
      (handleUpdate .baileys echoRender "A" (.closed (some (.boom 400))) createdA
        ).sockets = 2 ∧
      "A" ∈ (handleUpdate .baileys echoRender "A" (.closed (some (.boom 400))) createdA
        ).authDirs ∧
      terminalClose .baileys (.closed (some (.boom 401))) ∧
      terminalClose .baileys (.closed (some (.boom 440))) ∧
      terminalClose .commented (.closed (some (.boom 400))) ∧
      (handleUpdate .commented echoRender "A" (.closed (some (.boom 400))) createdA
        ).sessions.get "A" = none := by
  refine ⟨rfl, rfl, by decide, by decide, by decide, by decide, by decide, by decide,
    by decide, by decide, by decide, by decide⟩

/-! ## The send precondition -/

/-- C3 as stated fails: `sendText` for a session that is not registered
answers 404 with the not-found error, not the not-connected error. -/
theorem sendText_unregistered_not_found :
    isConnected .init textToA.session_id = false ∧
      sendText .init idleTransport textToA = (notFound, []) ∧
      (sendText .init idleTransport textToA).1 ≠ notConnected := by
  decide

/-- A session that is not connected is not registered, or is registered with
a socket without identity. -/
theorem notConnected_cases (c : Controller) (session_id : Option String)
    (h : isConnected c session_id = false) :
    sockOf c session_id = none ∨
      ∃ sock, sockOf c session_id = some sock ∧ sock.user = none := by
  unfold isConnected at h
  cases hs : sockOf c session_id with
  | none => exact Or.inl rfl
  | some sock =>
    rw [hs] at h
    cases hu : sock.user with
    | none => exact Or.inr ⟨sock, rfl, hu⟩
    | some u => simp [hu] at h

/-- C3 as amended: when the session of a request is not registered, or is
registered with a socket without identity, none of the six send operations
calls `sendMessage`.  Video, audio, document and contact answer with the
not-connected error; image answers with it once its required fields are
present, and with its validation error otherwise; text answers with its
validation error when a required field is missing, else with the not-found
error when the session is not registered and with the not-connected error when
it is registered without identity. -/
theorem send_requires_connected (c : Controller) (net : Transport) (b : SendBody)
    (h : isConnected c b.session_id = false) :
    (∀ k, (send k c net b).2 = []) ∧
      sendVideo c net b = (notConnected, []) ∧
      sendAudio c net b = (notConnected, []) ∧
      sendDocument c net b = (notConnected, []) ∧
      sendContact c net b = (notConnected, []) ∧
      sendImage c net b =
        (if truthy b.session_id && truthy b.rcpt && truthy b.image then notConnected
         else imageRequired, []) ∧
      sendText c net b =
        (if truthy b.session_id && truthy b.rcpt && truthy b.message then
           (if (sockOf c b.session_id).isSome then notConnected else notFound)
         else textRequired, []) := by
  have hv : sendVideo c net b = (notConnected, []) := by
    rcases notConnected_cases c b.session_id h with hs | ⟨sock, hs, hu⟩
    · simp [sendVideo, hs]
    · simp [sendVideo, hs, hu]
  have ha : sendAudio c net b = (notConnected, []) := by
    rcases notConnected_cases c b.session_id h with hs | ⟨sock, hs, hu⟩
    · simp [sendAudio, hs]
    · simp [sendAudio, hs, hu]
  have hd : sendDocument c net b = (notConnected, []) := by
    rcases notConnected_cases c b.session_id h with hs | ⟨sock, hs, hu⟩
    · simp [sendDocument, hs]
    · simp [sendDocument, hs, hu]
  have hc : sendContact c net b = (notConnected, []) := by
    rcases notConnected_cases c b.session_id h with hs | ⟨sock, hs, hu⟩
    · simp [sendContact, hs]
    · simp [sendContact, hs, hu]
  have hi : sendImage c net b =
      (if truthy b.session_id && truthy b.rcpt && truthy b.image then notConnected
       else imageRequired, []) := by
    unfold sendImage
    by_cases hval : (truthy b.session_id && truthy b.rcpt && truthy b.image) = true
    · have hval' := hval
      simp only [Bool.and_eq_true] at hval'
      obtain ⟨⟨h1, h2⟩, h3⟩ := hval'
      simp only [h1, h2, h3, Bool.not_true, Bool.or_self, Bool.false_eq_true, if_false,
        Bool.and_self, if_true]
      rcases notConnected_cases c b.session_id h with hs | ⟨sock, hs, hu⟩
      · simp [hs, notFound]
      · simp [hs, hu]
    · have hneg : (!truthy b.session_id || !truthy b.rcpt || !truthy b.image) = true := by
        revert hval
        cases truthy b.session_id <;> cases truthy b.rcpt <;> cases truthy b.image <;> simp
      rw [if_pos hneg, if_neg hval]
      rfl
  have htx : sendText c net b =
      (if truthy b.session_id && truthy b.rcpt && truthy b.message then
         (if (sockOf c b.session_id).isSome then notConnected else notFound)
       else textRequired, []) := by
    unfold sendText
    by_cases hval : (truthy b.session_id && truthy b.rcpt && truthy b.message) = true
    · have hval' := hval
      simp only [Bool.and_eq_true] at hval'
      obtain ⟨⟨h1, h2⟩, h3⟩ := hval'
      simp only [h1, h2, h3, Bool.not_true, Bool.or_self, Bool.false_eq_true, if_false,
        Bool.and_self, if_true]
      rcases notConnected_cases c b.session_id h with hs | ⟨sock, hs, hu⟩
      · simp [hs, notFound]
      · simp [hs, hu]
    · have hneg : (!truthy b.session_id || !truthy b.rcpt || !truthy b.message) = true := by
        revert hval
        cases truthy b.session_id <;> cases truthy b.rcpt <;> cases truthy b.message <;> simp
      rw [if_pos hneg, if_neg hval]
      rfl
  refine ⟨?_, hv, ha, hd, hc, hi, htx⟩
  intro k
  cases k
  · show (sendText c net b).2 = []
    rw [htx]
  · show (sendImage c net b).2 = []
    rw [hi]
  · show (sendVideo c net b).2 = []
    rw [hv]
  · show (sendAudio c net b).2 = []
    rw [ha]
  · show (sendDocument c net b).2 = []
    rw [hd]
  · show (sendContact c net b).2 = []
    rw [hc]

/-- C3 as amended at a concrete input: session "A" is registered by a create
request and has no identity yet, and a text is sent on it. -/
theorem send_requires_connected_witness :
    sendText (createSession .init (some "A")).1 idleTransport textToA = (notConnected, []) :=
  (send_requires_connected (createSession .init (some "A")).1 idleTransport textToA
    (by decide)).2.2.2.2.2.2

/-! ## Concurrent create requests -/

/-- C5 fails on the code: when a second create request for "A" arrives while
the `initializeSession` of the first is suspended at its awaits, the second
request finds no entry in `sessions`, gets no `existing` answer and starts an
initialisation of its own; two sockets are made, the second replaces the first
in the registry, and `end()` is never called on the first. -/
theorem concurrent_create_makes_two_sockets :
    (createSessionBegin .init (some "A")).2 = none ∧
      (createSessionBegin (createSessionBegin .init (some "A")).1 (some "A")).2 = none ∧
      (createSessionBegin (createSessionBegin .init (some "A")).1 (some "A")).1.inits
        = ["A", "A"] ∧
      twoCreates.sockets = 2 ∧
      twoCreates.sessions.get "A" = some { sockId := 1, user := none } ∧
      twoCreates.ended = [] := by
  decide

/-! ## Recipient addresses -/

/-- The suffixed recipient contains the separator. -/
theorem includes_append_domainSuffix (x : String) :
    includes (x ++ domainSuffix) '@' = true := by
  simp [includes, domainSuffix]

/-- Every call of `sendMessage` made by a send operation is addressed to the
`jid` of the recipient of the request. -/
theorem send_calls_jid (k : SendKind) (c : Controller) (net : Transport) (b : SendBody)
    (call : SendCall) (h : call ∈ (send k c net b).2) :
    ∃ r, b.rcpt = some r ∧ call.jid = jid r := by
  have hdel : ∀ (sock : Sock) (j : String) (content : Content) (done : String),
      call ∈ (deliver net sock j content done).2 → call.jid = j := by
    intro sock j content done hc
    unfold deliver at hc
    split at hc <;> simp at hc <;> rw [hc]
  have hmed : ∀ (sock : Sock) (rcpt media : Option String) (content : Buffer → Content)
      (done : String), call ∈ (deliverMedia net sock rcpt media content done).2 →
      ∃ r, rcpt = some r ∧ call.jid = jid r := by
    intro sock rcpt media content done hc
    unfold deliverMedia at hc
    split at hc
    · simp at hc
    · split at hc
      · simp at hc
      · split at hc
        · simp at hc
        · exact ⟨_, rfl, hdel _ _ _ _ hc⟩
  cases k
  · simp only [send, sendText] at h
    split at h
    · simp at h
    · rename_i hval
      split at h
      · simp at h
      · split at h
        · simp at h
        · have hr : ∃ r, b.rcpt = some r := by
            cases hb : b.rcpt with
            | none => simp [hb, truthy] at hval
            | some r => exact ⟨r, rfl⟩
          obtain ⟨r, hr⟩ := hr
          refine ⟨r, hr, ?_⟩
          have := hdel _ _ _ _ h
          rw [this, hr]; rfl
  · simp only [send, sendImage] at h
    split at h
    · simp at h
    · split at h
      · simp at h
      · split at h
        · simp at h
        · exact hmed _ _ _ _ _ h
  · simp only [send, sendVideo] at h
    split at h
    · simp at h
    · split at h
      · simp at h
      · exact hmed _ _ _ _ _ h
  · simp only [send, sendAudio] at h
    split at h
    · simp at h
    · split at h
      · simp at h
      · exact hmed _ _ _ _ _ h
  · simp only [send, sendDocument] at h
    split at h
    · simp at h
    · split at h
      · simp at h
      · exact hmed _ _ _ _ _ h
  · simp only [send, sendContact] at h
    split at h
    · simp at h
    · split at h
      · simp at h
      · split at h
        · simp at h
        · split at h
          · simp at h
          · exact ⟨_, by assumption, hdel _ _ _ _ h⟩

/-- C7: a recipient without `@` and the same recipient followed by
`@s.whatsapp.net` get the same address, the suffixed one; a recipient with `@`
is its own address; every `sendMessage` call of the six send operations is
addressed to that address.  In particular "15551234567" and
"15551234567@s.whatsapp.net" get the same address. -/
theorem jid_normalizes :
    (∀ x : String, includes x '@' = false →
      jid x = x ++ "@s.whatsapp.net" ∧ jid (x ++ "@s.whatsapp.net") = x ++ "@s.whatsapp.net" ∧
        jid x = jid (x ++ "@s.whatsapp.net")) ∧
    (∀ x : String, includes x '@' = true → jid x = x) ∧
    (∀ (k : SendKind) (c : Controller) (net : Transport) (b : SendBody) (call : SendCall),
      call ∈ (send k c net b).2 → ∃ r, b.rcpt = some r ∧ call.jid = jid r) ∧
    jid "15551234567" = "15551234567@s.whatsapp.net" ∧
    jid "15551234567@s.whatsapp.net" = "15551234567@s.whatsapp.net" := by
  refine ⟨?_, ?_, send_calls_jid, by decide, by decide⟩
  · intro x hx
    have h1 : jid x = x ++ "@s.whatsapp.net" := by simp [jid, hx]
    have h2 : jid (x ++ "@s.whatsapp.net") = x ++ "@s.whatsapp.net" := by
      have := includes_append_domainSuffix x
      simp only [domainSuffix] at this
      simp [jid, this]
    exact ⟨h1, h2, h1.trans h2.symm⟩
  · intro x hx
    simp [jid, hx]

/-- C7 at concrete inputs: a bare number, an address, and the call that
`sendText` makes on a connected session. -/
theorem jid_normalizes_witness :
    jid "33612345678" = jid ("33612345678" ++ "@s.whatsapp.net") ∧
      jid "1203630@g.us" = "1203630@g.us" ∧
      (∃ r, textToA.rcpt = some r ∧
        (SendCall.mk 0 "15551234567@s.whatsapp.net" (.text "bonjour")).jid = jid r) :=
  ⟨(jid_normalizes.1 "33612345678" (by decide)).2.2,
   jid_normalizes.2.1 "1203630@g.us" (by decide),
   jid_normalizes.2.2.1 .text
     (recordIdentity "A" ⟨"15550001111:3@s.whatsapp.net", none⟩
       (createSession .init (some "A")).1)
     idleTransport textToA _ (by decide)⟩

/-! ## The pairing artifact -/

/-- A data URL is a truthy string. -/
theorem truthy_dataURL (img : String) :
    truthy (some ("data:image/png;base64," ++ img)) = true := by
  have h : ("data:image/png;base64," ++ img) ≠ "" := by
    intro h
    have hl := congrArg String.length h
    rw [String.length_append] at hl
    have h22 : "data:image/png;base64,".length = 22 := by decide
    have h0 : "".length = 0 := by decide
    omega
  simp [truthy, h]

/-- The pairing-code cache after a pairing-code event. -/
theorem handleUpdate_pairing (dr : DisconnectReason) (render : String → Option String)
    (sessionId qr img : String) (c : Controller) (hq : qr ≠ "") (hr : render qr = some img) :
    handleUpdate dr render sessionId (.pairing qr) c =
      { c with qrCodes := c.qrCodes.set sessionId ("data:image/png;base64," ++ img) } := by
  simp [handleUpdate, suspends, connectionUpdate, Update.pairing, qrBranch, truthy, hq,
    toDataURL, hr]

/-- The pairing-status request on a session with a cached data URL. -/
theorem getQR_cached (c : Controller) (sessionId img : String) (sock : Sock)
    (hs : c.sessions.get sessionId = some sock)
    (hq : c.qrCodes.get sessionId = some ("data:image/png;base64," ++ img)) :
    getQR c sessionId = qrReady ("data:image/png;base64," ++ img) := by
  simp [getQR, hs, hq, truthy_dataURL, qrReady]

/-- The pairing-status request on a registered session without cached artifact. -/
theorem getQR_uncached (c : Controller) (sessionId : String) (sock : Sock)
    (hs : c.sessions.get sessionId = some sock) (hq : c.qrCodes.get sessionId = none) :
    getQR c sessionId = qrAbsent sock := by
  simp only [getQR, hs, hq, truthy, qrAbsent]
  cases sock.user <;> simp

/-- The handler on an open event. -/
theorem handleUpdate_isOpen (dr : DisconnectReason) (render : String → Option String)
    (sessionId : String) (c : Controller) :
    handleUpdate dr render sessionId .isOpen c = openBranch sessionId c := by
  simp [handleUpdate, suspends, connectionUpdate, Update.isOpen, qrBranch, truthy]

/-- C8: on a registered session, after a pairing-code event whose code the
renderer turns into the artifact `a`, the pairing-status request answers
`qr_ready` with exactly `a`; after a second pairing-code event it answers with
the artifact of the second; after an open event the pairing-code cache has no
entry for the session and the request answers `connected` or `waiting`, with
no `qr` field. -/
theorem pairing_round_trip (dr : DisconnectReason) (render : String → Option String)
    (sessionId qr img : String) (sock : Sock) (c : Controller)
    (hs : c.sessions.get sessionId = some sock) (hq : qr ≠ "") (hr : render qr = some img) :
    (handleUpdate dr render sessionId (.pairing qr) c).qrCodes.get sessionId =
        some ("data:image/png;base64," ++ img) ∧
      getQR (handleUpdate dr render sessionId (.pairing qr) c) sessionId =
        qrReady ("data:image/png;base64," ++ img) ∧
      (∀ qr2 img2, qr2 ≠ "" → render qr2 = some img2 →
        getQR (handleUpdate dr render sessionId (.pairing qr2)
          (handleUpdate dr render sessionId (.pairing qr) c)) sessionId =
          qrReady ("data:image/png;base64," ++ img2)) ∧
      (handleUpdate dr render sessionId .isOpen
        (handleUpdate dr render sessionId (.pairing qr) c)).qrCodes.get sessionId = none ∧
      getQR (handleUpdate dr render sessionId .isOpen
        (handleUpdate dr render sessionId (.pairing qr) c)) sessionId = qrAbsent sock ∧
      (∀ v, ("qr", v) ∉ (qrAbsent sock).body) ∧
      (∀ user, getQR (step dr render (handleUpdate dr render sessionId (.pairing qr) c)
          (.opened sessionId user)) sessionId =
        .json ([("status", .str "connected"), ("message", .str "Session déjà connectée")] ++
          identityFields user)) := by
  have e1 := handleUpdate_pairing dr render sessionId qr img c hq hr
  refine ⟨?_, ?_, ?_, ?_, ?_, ?_, ?_⟩
  · rw [e1]; simp
  · apply getQR_cached _ _ _ sock
    · rw [e1]; exact hs
    · rw [e1]; simp
  · intro qr2 img2 hq2 hr2
    rw [handleUpdate_pairing dr render sessionId qr2 img2 _ hq2 hr2]
    apply getQR_cached _ _ _ sock
    · rw [e1]; exact hs
    · simp
  · rw [handleUpdate_isOpen]; simp [openBranch]
  · rw [handleUpdate_isOpen]
    apply getQR_uncached
    · rw [e1]; exact hs
    · simp [openBranch]
  · intro v
    unfold qrAbsent
    cases hu : sock.user with
    | none => simp [Response.json]
    | some u =>
      cases hn : u.name <;> simp [Response.json, identityFields, hn]
  · intro user
    rw [e1]
    have hreg : (recordIdentity sessionId user
        { c with qrCodes := c.qrCodes.set sessionId ("data:image/png;base64," ++ img) }
        ).sessions.get sessionId = some { sock with user := some user } := by
      simp [recordIdentity, hs]
    show getQR (connectionUpdate dr render sessionId .isOpen _) sessionId = _
    have hopen : ∀ s,
        connectionUpdate dr render sessionId .isOpen s = openBranch sessionId s := by
      intro s
      simp [connectionUpdate, Update.isOpen, qrBranch, truthy]
    rw [hopen, getQR_uncached _ _ { sock with user := some user }]
    · simp [qrAbsent]
    · exact hreg
    · simp [openBranch]

/-- C8 at a concrete input: session "A" is created, receives the code "2@abc"
and then opens. -/
theorem pairing_round_trip_witness :
    getQR (handleUpdate .baileys echoRender "A" (.pairing "2@abc")
        (createSession .init (some "A")).1) "A" =
      qrReady "data:image/png;base64,2@abc" ∧
    (handleUpdate .baileys echoRender "A" .isOpen
      (handleUpdate .baileys echoRender "A" (.pairing "2@abc")
        (createSession .init (some "A")).1)).qrCodes.get "A" = none :=
  ⟨(pairing_round_trip .baileys echoRender "A" "2@abc" "2@abc" ⟨0, none⟩
      (createSession .init (some "A")).1 (by decide) (by decide) rfl).2.1,
   (pairing_round_trip .baileys echoRender "A" "2@abc" "2@abc" ⟨0, none⟩
      (createSession .init (some "A")).1 (by decide) (by decide) rfl).2.2.2.1⟩

/-! ## Reset of the retry count -/

/-- C10: an open event leaves no entry for the session in the retry map,
whatever count was stored, so that the count read by the next close is 0; a
transient close that follows is then handled as attempt 1: the count becomes
1, the session stays registered while the handler waits, and a new socket is
registered when the delay is over. -/
theorem open_resets_retry_count (dr : DisconnectReason) (render : String → Option String)
    (sessionId : String) (c : Controller) :
    (handleUpdate dr render sessionId .isOpen c).retries.get sessionId = none ∧
      retryCount sessionId (handleUpdate dr render sessionId .isOpen c) = 0 ∧
      (handleUpdate dr render sessionId .isOpen c).sessions = c.sessions ∧
      (∀ update, transientClose dr update →
        (connectionUpdate dr render sessionId update
            (handleUpdate dr render sessionId .isOpen c)).retries.get sessionId = some 1 ∧
          (connectionUpdate dr render sessionId update
            (handleUpdate dr render sessionId .isOpen c)).sessions = c.sessions ∧
          (connectionUpdate dr render sessionId update
            (handleUpdate dr render sessionId .isOpen c)).timers = sessionId :: c.timers ∧
          (handleUpdate dr render sessionId update
            (handleUpdate dr render sessionId .isOpen c)).retries.get sessionId = some 1 ∧
          (handleUpdate dr render sessionId update
            (handleUpdate dr render sessionId .isOpen c)).sessions.get sessionId =
              some { sockId := c.sockets, user := none }) := by
  rw [handleUpdate_isOpen]
  have h0 : retryCount sessionId (openBranch sessionId c) = 0 := by
    simp [retryCount, openBranch]
  refine ⟨by simp [openBranch], h0, rfl, ?_⟩
  intro update ht
  rw [handleUpdate_retry_state dr render sessionId update _ ht (by rw [h0]; decide),
    connectionUpdate_retry dr render sessionId update _ ht (by rw [h0]; decide), h0]
  simp [openBranch]

/-! ## Invariants of executions -/

theorem createSessionBegin_maps (c : Controller) (session_id : Option String) :
    (createSessionBegin c session_id).1.sessions = c.sessions ∧
      (createSessionBegin c session_id).1.qrCodes = c.qrCodes ∧
      (createSessionBegin c session_id).1.timers = c.timers ∧
      ((createSessionBegin c session_id).1.inits = c.inits ∨
        ∃ id, session_id = some id ∧ id ≠ "" ∧
          (createSessionBegin c session_id).1.inits = id :: c.inits) ∧
      (createSessionBegin c session_id).1.handlers = c.handlers := by
  unfold createSessionBegin
  cases session_id with
  | none => simp [truthy]
  | some id =>
    by_cases hid : id = ""
    · simp [truthy, hid]
    · cases hs : c.sessions.get id with
      | none => simp [truthy, hid, hs, initializeSessionBegin]
      | some sock => simp [truthy, hid, hs]

theorem removeAuth_cleanupSession_get (sessionId j : String) (c : Controller) :
    (removeAuth sessionId (cleanupSession sessionId c)).sessions.get j =
        (if j = sessionId then none else c.sessions.get j) ∧
      (removeAuth sessionId (cleanupSession sessionId c)).qrCodes.get j =
        (if j = sessionId then none else c.qrCodes.get j) ∧
      (removeAuth sessionId (cleanupSession sessionId c)).inits = c.inits ∧
      (removeAuth sessionId (cleanupSession sessionId c)).timers = c.timers ∧
      (removeAuth sessionId (cleanupSession sessionId c)).handlers = c.handlers := by
  refine ⟨?_, ?_, ?_, ?_, ?_⟩
  · show (cleanupSession sessionId c).sessions.get j = _
    exact cleanupSession_get_sessions sessionId j c
  · show (cleanupSession sessionId c).qrCodes.get j = _
    rw [cleanupSession_qrCodes, JsMap.get_delete]
  · show (cleanupSession sessionId c).inits = _
    simp
  · show (cleanupSession sessionId c).timers = _
    simp
  · show (cleanupSession sessionId c).handlers = _
    simp

/-- The close branch either cleans the session up or touches neither the
sessions nor the pairing codes. -/
theorem closeBranch_cases (dr : DisconnectReason) (sessionId : String)
    (lastDisconnect : Option DisconnectError) (c : Controller) :
    closeBranch dr sessionId lastDisconnect c =
        removeAuth sessionId (cleanupSession sessionId c) ∨
      ((closeBranch dr sessionId lastDisconnect c).sessions = c.sessions ∧
        (closeBranch dr sessionId lastDisconnect c).qrCodes = c.qrCodes ∧
        (closeBranch dr sessionId lastDisconnect c).inits = c.inits ∧
        (closeBranch dr sessionId lastDisconnect c).timers = sessionId :: c.timers ∧
        (closeBranch dr sessionId lastDisconnect c).handlers = c.handlers) := by
  unfold closeBranch
  split
  · exact Or.inl rfl
  · split
    · exact Or.inr ⟨rfl, rfl, rfl, rfl, rfl⟩
    · exact Or.inl rfl

/-- The handler on an update that reports an open connection only. -/
theorem connectionUpdate_isOpen (dr : DisconnectReason) (render : String → Option String)
    (sessionId : String) (c : Controller) :
    connectionUpdate dr render sessionId .isOpen c = openBranch sessionId c := by
  simp [connectionUpdate, Update.isOpen, qrBranch, truthy]

/-- The handler on an update that reports a close only. -/
theorem connectionUpdate_closed (dr : DisconnectReason) (render : String → Option String)
    (sessionId : String) (lastDisconnect : Option DisconnectError) (c : Controller) :
    connectionUpdate dr render sessionId (.closed lastDisconnect) c =
      closeBranch dr sessionId lastDisconnect c := by
  simp [connectionUpdate, Update.closed, qrBranch, truthy]

/-- The handler on an update that carries a pairing code only. -/
theorem connectionUpdate_pairing (dr : DisconnectReason) (render : String → Option String)
    (sessionId qr : String) (c : Controller) :
    connectionUpdate dr render sessionId (.pairing qr) c =
      qrBranch render sessionId (some qr) c := by
  simp [connectionUpdate, Update.pairing]

/-- The recording of an identity changes the registry only. -/
theorem recordIdentity_fields (sessionId : String) (user : User) (c : Controller) :
    (recordIdentity sessionId user c).qrCodes = c.qrCodes ∧
      (recordIdentity sessionId user c).inits = c.inits ∧
      (recordIdentity sessionId user c).timers = c.timers ∧
      (recordIdentity sessionId user c).handlers = c.handlers ∧
      (∀ j, c.sessions.get j = none → (recordIdentity sessionId user c).sessions.get j = none) := by
  unfold recordIdentity
  cases hs : c.sessions.get sessionId with
  | none => exact ⟨rfl, rfl, rfl, rfl, fun _ h => h⟩
  | some sock =>
    refine ⟨rfl, rfl, rfl, rfl, ?_⟩
    intro j hj
    have hne : j ≠ sessionId := fun e => by rw [e, hs] at hj; cases hj
    show (c.sessions.set sessionId _).get j = none
    rw [JsMap.get_set_ne _ _ hne]; exact hj

/-- Every piece of execution keeps the invariant on ids. -/
theorem idsInv_step (dr : DisconnectReason) (render : String → Option String)
    {c : Controller} (h : IdsInv c) (a : Action) (he : enabled c a = true) :
    IdsInv (step dr render c a) := by
  obtain ⟨h1, h2, h3, h4⟩ := h
  have hev : ∀ sessionId, c.handlers.contains sessionId = true → "" ≠ sessionId := by
    intro sessionId hc e
    exact h4 (e ▸ (by simpa using hc))
  cases a with
  | create session_id =>
    obtain ⟨hs, -, ht, hi, hh⟩ := createSessionBegin_maps c session_id
    refine ⟨?_, ?_, ?_, ?_⟩
    · rw [show (Zap.step dr render c (.create session_id)).sessions = c.sessions from hs]
      exact h1
    · rcases hi with hi | ⟨id, -, hid, hi⟩
      · rw [show (Zap.step dr render c (.create session_id)).inits = c.inits from hi]; exact h2
      · rw [show (Zap.step dr render c (.create session_id)).inits = id :: c.inits from hi]
        simp [h2, Ne.symm hid]
    · rw [show (Zap.step dr render c (.create session_id)).timers = c.timers from ht]; exact h3
    · rw [show (Zap.step dr render c (.create session_id)).handlers = c.handlers from hh]
      exact h4
  | resume sessionId =>
    have he' : sessionId ∈ c.inits := by simpa [enabled] using he
    have hne : "" ≠ sessionId := fun e => h2 (e ▸ he')
    refine ⟨?_, ?_, h3, ?_⟩
    · show (c.sessions.set sessionId _).get "" = none
      rw [JsMap.get_set_ne _ _ hne]; exact h1
    · show "" ∉ c.inits.erase sessionId
      exact fun hm => h2 (List.mem_of_mem_erase hm)
    · show "" ∉ sessionId :: c.handlers
      simp [h4, hne]
  | delete sessionId =>
    simp only [Zap.step, deleteSession]
    split
    · obtain ⟨hs, -, hi, ht, hh⟩ := removeAuth_cleanupSession_get sessionId "" c
      refine ⟨?_, by rw [hi]; exact h2, by rw [ht]; exact h3, by rw [hh]; exact h4⟩
      rw [hs]; split <;> simp [h1]
    · exact ⟨h1, h2, h3, h4⟩
  | logout sessionId =>
    simp only [Zap.step, logoutSession]
    split
    · exact ⟨h1, h2, h3, h4⟩
    · obtain ⟨hs, -, hi, ht, hh⟩ := removeAuth_cleanupSession_get sessionId ""
        { c with loggedOut := _ :: c.loggedOut }
      refine ⟨?_, by rw [hi]; exact h2, by rw [ht]; exact h3, by rw [hh]; exact h4⟩
      rw [hs]; split <;> simp [h1]
  | pairing sessionId qr =>
    simp only [Zap.step, connectionUpdate_pairing]
    exact ⟨by simpa using h1, by simpa using h2, by simpa using h3, by simpa using h4⟩
  | opened sessionId user =>
    obtain ⟨-, hi, ht, hh, hs⟩ := recordIdentity_fields sessionId user c
    simp only [Zap.step, connectionUpdate_isOpen]
    exact ⟨hs "" h1, by rw [show (openBranch sessionId _).inits = _ from hi]; exact h2,
      by rw [show (openBranch sessionId _).timers = _ from ht]; exact h3,
      by rw [show (openBranch sessionId _).handlers = _ from hh]; exact h4⟩
  | openedElsewhere sessionId =>
    simp only [Zap.step, connectionUpdate_isOpen]
    exact ⟨h1, h2, h3, h4⟩
  | closed sessionId lastDisconnect =>
    have hne : "" ≠ sessionId := hev sessionId (by simpa [enabled] using he)
    simp only [Zap.step, connectionUpdate_closed]
    rcases closeBranch_cases dr sessionId lastDisconnect c with hc | ⟨hs, -, hi, ht, hh⟩
    · rw [hc]
      obtain ⟨hs, -, hi, ht, hh⟩ := removeAuth_cleanupSession_get sessionId "" c
      refine ⟨?_, by rw [hi]; exact h2, by rw [ht]; exact h3, by rw [hh]; exact h4⟩
      rw [hs]; split <;> simp [h1]
    · refine ⟨by rw [hs]; exact h1, by rw [hi]; exact h2, ?_, by rw [hh]; exact h4⟩
      rw [ht]; simp [h3, hne]
  | delayOver sessionId =>
    have he' : sessionId ∈ c.timers := by simpa [enabled] using he
    have hne : "" ≠ sessionId := fun e => h3 (e ▸ he')
    refine ⟨h1, ?_, ?_, h4⟩
    · show "" ∉ sessionId :: c.inits
      simp [h2, hne]
    · show "" ∉ c.timers.erase sessionId
      exact fun hm => h3 (List.mem_of_mem_erase hm)

/-- An invariant of the pieces of execution holds after every run. -/
theorem run_invariant (dr : DisconnectReason) (render : String → Option String)
    (P : Controller → Prop)
    (hstep : ∀ c a, P c → enabled c a = true → P (step dr render c a))
    (actions : List Action) :
    ∀ c c', P c → run dr render c actions = some c' → P c' := by
  induction actions with
  | nil =>
    intro c c' hc hr
    simp only [run, Option.some.injEq] at hr
    exact hr ▸ hc
  | cons a rest ih =>
    intro c c' hc hr
    simp only [run] at hr
    split at hr
    · rename_i he
      exact ih _ _ (hstep c a hc he) hr
    · cases hr

/-- The invariant on ids holds in every reachable state. -/
theorem Reachable.idsInv {dr : DisconnectReason} {render : String → Option String}
    {c : Controller} (h : Reachable dr render c) : IdsInv c := by
  obtain ⟨actions, hr⟩ := h
  refine run_invariant dr render IdsInv ?_ actions _ _ ?_ hr
  · intro c a hc he
    exact idsInv_step dr render hc a he
  · exact ⟨rfl, by simp [Controller.init], by simp [Controller.init],
      by simp [Controller.init]⟩

/-- A session that is not registered and has no suspended initialisation
stays so under every piece of execution other than a create request for it
and the end of a retry delay of it. -/
theorem absent_step (dr : DisconnectReason) (render : String → Option String)
    (sessionId : String) (c : Controller) (a : Action)
    (hs : c.sessions.get sessionId = none) (hi : sessionId ∉ c.inits)
    (he : enabled c a = true) (hc : a ≠ .create (some sessionId))
    (hd : a ≠ .delayOver sessionId) :
    (step dr render c a).sessions.get sessionId = none ∧
      sessionId ∉ (step dr render c a).inits := by
  cases a with
  | create session_id =>
    obtain ⟨hs', -, -, hi'⟩ := createSessionBegin_maps c session_id
    refine ⟨?_, ?_⟩
    · rw [show (Zap.step dr render c (.create session_id)).sessions = c.sessions from hs']
      exact hs
    · rcases hi' with hi' | ⟨id, hid, -, hi'⟩
      · rw [show (Zap.step dr render c (.create session_id)).inits = c.inits from hi']
        exact hi
      · rw [show (Zap.step dr render c (.create session_id)).inits = id :: c.inits from hi']
        have hne : sessionId ≠ id := fun e => hc (by rw [hid, e])
        simp [hi, hne]
  | resume j =>
    have he' : j ∈ c.inits := by simpa [enabled] using he
    have hne : sessionId ≠ j := fun e => hi (e ▸ he')
    refine ⟨?_, ?_⟩
    · show (c.sessions.set j _).get sessionId = none
      rw [JsMap.get_set_ne _ _ hne]; exact hs
    · show sessionId ∉ c.inits.erase j
      exact fun hm => hi (List.mem_of_mem_erase hm)
  | delete j =>
    simp only [Zap.step, deleteSession]
    split
    · obtain ⟨hs', -, hi', -⟩ := removeAuth_cleanupSession_get j sessionId c
      refine ⟨?_, by rw [hi']; exact hi⟩
      rw [hs']; split <;> simp [hs]
    · exact ⟨hs, hi⟩
  | logout j =>
    simp only [Zap.step, logoutSession]
    split
    · exact ⟨hs, hi⟩
    · obtain ⟨hs', -, hi', -⟩ := removeAuth_cleanupSession_get j sessionId
        { c with loggedOut := _ :: c.loggedOut }
      refine ⟨?_, by rw [hi']; exact hi⟩
      rw [hs']; split <;> simp [hs]
  | pairing j qr =>
    simp only [Zap.step, connectionUpdate, Update.pairing]
    exact ⟨by simpa using hs, by simpa using hi⟩
  | opened j user =>
    obtain ⟨-, hi', -, -, hs'⟩ := recordIdentity_fields j user c
    simp only [Zap.step, connectionUpdate_isOpen]
    exact ⟨hs' sessionId hs, by rw [show (openBranch j _).inits = _ from hi']; exact hi⟩
  | openedElsewhere j =>
    simp only [Zap.step, connectionUpdate_isOpen]
    exact ⟨hs, hi⟩
  | closed j lastDisconnect =>
    simp only [Zap.step, connectionUpdate_closed]
    rcases closeBranch_cases dr j lastDisconnect c with hcl | ⟨hs', -, hi', -⟩
    · rw [hcl]
      obtain ⟨hs', -, hi', -⟩ := removeAuth_cleanupSession_get j sessionId c
      refine ⟨?_, by rw [hi']; exact hi⟩
      rw [hs']; split <;> simp [hs]
    · exact ⟨by rw [hs']; exact hs, by rw [hi']; exact hi⟩
  | delayOver j =>
    have hne : sessionId ≠ j := fun e => hd (by rw [e])
    refine ⟨hs, ?_⟩
    show sessionId ∉ j :: c.inits
    simp [hi, hne]

/-- The same, along a run. -/
theorem absent_run (dr : DisconnectReason) (render : String → Option String)
    (sessionId : String) (actions : List Action) :
    ∀ c c', c.sessions.get sessionId = none → sessionId ∉ c.inits →
      run dr render c actions = some c' →
      Action.create (some sessionId) ∉ actions → Action.delayOver sessionId ∉ actions →
      c'.sessions.get sessionId = none ∧ sessionId ∉ c'.inits := by
  induction actions with
  | nil =>
    intro c c' hs hi hr _ _
    simp only [run, Option.some.injEq] at hr
    subst hr
    exact ⟨hs, hi⟩
  | cons a rest ih =>
    intro c c' hs hi hr hc hd
    simp only [run] at hr
    simp only [List.mem_cons, not_or] at hc hd
    split at hr
    · rename_i he
      obtain ⟨hs', hi'⟩ := absent_step dr render sessionId c a hs hi he (Ne.symm hc.1)
        (Ne.symm hd.1)
      exact ih _ _ hs' hi' hr hc.2 hd.2
    · cases hr

/-! ## Create on a registered session -/

/-- C4: a create request for an id that is in the registry changes nothing:
the state after the request is the state before it (the four maps, the number
of sockets made and the suspended calls included), and the response reports
`connected` with the phone when the socket has an identity and `existing`
otherwise.  The empty id, which the request rejects before the lookup, is not
in the registry of any reachable state. -/
theorem create_existing_no_effect :
    (∀ (c : Controller) (sessionId : String) (sock : Sock), sessionId ≠ "" →
      c.sessions.get sessionId = some sock →
      createSession c (some sessionId) = (c, existingResponse sessionId sock) ∧
        createSessionBegin c (some sessionId) = (c, some (existingResponse sessionId sock))) ∧
    (∀ (dr : DisconnectReason) (render : String → Option String) (c : Controller)
      (sessionId : String) (sock : Sock), Reachable dr render c →
      c.sessions.get sessionId = some sock →
      createSession c (some sessionId) = (c, existingResponse sessionId sock)) ∧
    (∀ (sessionId : String) (sock : Sock) (u : User), sock.user = some u →
      existingResponse sessionId sock =
        .json [("message", .str "Session déjà connectée"), ("session_id", .str sessionId),
               ("status", .str "connected"), ("phone", .str (phone u))]) ∧
    (∀ (sessionId : String) (sock : Sock), sock.user = none →
      existingResponse sessionId sock =
        .json [("message", .str "Session existe déjà"), ("session_id", .str sessionId),
               ("status", .str "existing")]) := by
  have key : ∀ (c : Controller) (sessionId : String) (sock : Sock), sessionId ≠ "" →
      c.sessions.get sessionId = some sock →
      createSession c (some sessionId) = (c, existingResponse sessionId sock) ∧
        createSessionBegin c (some sessionId) = (c, some (existingResponse sessionId sock)) := by
    intro c sessionId sock hid hs
    simp [createSession, createSessionBegin, truthy, hid, hs]
  refine ⟨key, ?_, ?_, ?_⟩
  · intro dr render c sessionId sock hr hs
    have hid : sessionId ≠ "" := by
      intro e
      rw [e, hr.idsInv.1] at hs
      cases hs
    exact (key c sessionId sock hid hs).1
  · intro sessionId sock u hu
    simp [existingResponse, hu]
  · intro sessionId sock hu
    simp [existingResponse, hu]

/-- C4 at concrete inputs: a second create request for "A" while it awaits
pairing, and one after it has opened for the phone 15551234567. -/
theorem create_existing_no_effect_witness :
    createSession awaitingPairing (some "A") =
        (awaitingPairing,
         .json [("message", .str "Session existe déjà"), ("session_id", .str "A"),
                ("status", .str "existing")]) ∧
      createSession openedA (some "A") =
        (openedA,
         .json [("message", .str "Session déjà connectée"), ("session_id", .str "A"),
                ("status", .str "connected"), ("phone", .str "15551234567")]) :=
  ⟨(create_existing_no_effect.1 awaitingPairing "A" ⟨0, none⟩ (by decide) (by decide)).1,
   create_existing_no_effect.2.1 .baileys echoRender openedA "A"
     ⟨0, some ⟨"15551234567:12@s.whatsapp.net", some "Ana"⟩⟩
     ⟨[.create (some "A"), .resume "A",
       .opened "A" ⟨"15551234567:12@s.whatsapp.net", some "Ana"⟩], by decide⟩
     (by decide)⟩

/-! ## Removal during a retry delay -/

/-- C6 as stated fails: session "A" is created, closes with a transient
error and is deleted while the retry delay is pending; it is then absent from
the registry, but when the delay is over the handler initialises it again and
a new socket is registered for it, without any new create request. -/
theorem deleted_session_registered_again_by_retry :
    (run .baileys echoRender .init closeThenDelete).map
        (fun c => (c.sessions.has "A", reconnecting c "A", c.authDirs)) =
        some (false, true, []) ∧
      (run .baileys echoRender .init
        (closeThenDelete ++ [.delayOver "A", .resume "A"])).map
        (fun c => (c.sessions.get "A", c.authDirs)) =
        some (some { sockId := 1, user := none }, ["A"]) := by
  decide

/-- C6 as amended: a delete or logout request leaves the id absent from the
registry, and once it is absent with no initialisation of it suspended, it
stays absent along every execution that contains neither a create request for
it nor the end of a retry delay of it. -/
theorem removed_session_absent_until_initialised (dr : DisconnectReason)
    (render : String → Option String) (sessionId : String) :
    (∀ c : Controller, (deleteSession c sessionId).1.sessions.has sessionId = false ∧
      (logoutSession c sessionId).1.sessions.has sessionId = false ∧
      (deleteSession c sessionId).1.inits = c.inits ∧
      (logoutSession c sessionId).1.inits = c.inits) ∧
    (∀ (c c' : Controller) (actions : List Action),
      c.sessions.has sessionId = false → sessionId ∉ c.inits →
      run dr render c actions = some c' →
      Action.create (some sessionId) ∉ actions → Action.delayOver sessionId ∉ actions →
      c'.sessions.has sessionId = false) := by
  refine ⟨?_, ?_⟩
  · intro c
    refine ⟨?_, ?_, ?_, ?_⟩
    · simp only [deleteSession]
      split
      · rw [JsMap.has, (removeAuth_cleanupSession_get sessionId sessionId c).1]; simp
      · rename_i h; simpa using h
    · simp only [logoutSession]
      split
      · rename_i h; simp [JsMap.has, h]
      · rw [JsMap.has, (removeAuth_cleanupSession_get sessionId sessionId _).1]; simp
    · simp only [deleteSession]
      split
      · exact (removeAuth_cleanupSession_get sessionId sessionId c).2.2.1
      · rfl
    · simp only [logoutSession]
      split
      · rfl
      · exact (removeAuth_cleanupSession_get sessionId sessionId _).2.2.1
  · intro c c' actions hs hi hr hc hd
    have hs' : c.sessions.get sessionId = none := by
      simpa [JsMap.has] using hs
    have := (absent_run dr render sessionId actions c c' hs' hi hr hc hd).1
    simp [JsMap.has, this]

/-- C6 as amended at a concrete input: "A" is deleted during its retry delay,
then "B" is created and "A" receives nothing; "A" is still absent. -/
theorem removed_session_absent_until_initialised_witness :
    (step .baileys echoRender
      (step .baileys echoRender
        (deleteSession
          (step .baileys echoRender (createSession .init (some "A")).1
            (.closed "A" (some (.boom 408)))) "A").1
        (.create (some "B"))) (.resume "B")).sessions.has "A" = false :=
  (removed_session_absent_until_initialised .baileys echoRender "A").2
    (deleteSession
      (step .baileys echoRender (createSession .init (some "A")).1
        (.closed "A" (some (.boom 408)))) "A").1
    _ [.create (some "B"), .resume "B"] (by decide) (by decide) (by decide) (by decide)
    (by decide)

/-! ## The pairing artifact along executions -/

/-- C9 as stated fails: session "A" is created, receives a pairing code and
closes with a transient error; while the handler waits out the retry delay
the artifact is still cached. -/
theorem cached_artifact_while_reconnecting :
    (run .baileys echoRender .init pairThenClose).map
        (fun c => (c.qrCodes.get "A", reconnecting c "A", c.sessions.has "A")) =
      some (some "data:image/png;base64,2@abc", true, true) := by
  decide

/-- C10 at a concrete input: session "A" with two retries made opens and then
closes with code 408. -/
theorem open_resets_retry_count_witness :
    (handleUpdate .baileys echoRender "A" (.closed (some (.boom 408)))
      (handleUpdate .baileys echoRender "A" .isOpen
        { (createSession .init (some "A")).1 with retries := ⟨[("A", 2)]⟩ })).retries.get "A" =
      some 1 :=
  ((open_resets_retry_count .baileys echoRender "A"
    { (createSession .init (some "A")).1 with retries := ⟨[("A", 2)]⟩ }).2.2.2
    (.closed (some (.boom 408))) (by decide)).2.2.2.1

/-! ## The status request -/

/-- The characters before the first colon of a list that has a colon. -/
theorem takeWhile_colon (l r : List Char) (h : ':' ∉ l) :
    (l ++ ':' :: r).takeWhile (fun ch => ch != ':') = l := by
  induction l with
  | nil => simp
  | cons x rest ih =>
    have hx : x ≠ ':' := fun e => h (by simp [e])
    have hr : ':' ∉ rest := fun e => h (by simp [e])
    have hb : (x != ':') = true := by simpa using hx
    rw [List.cons_append, List.takeWhile_cons, hb]
    simp [ih hr]

/-- The characters before the first colon of a list without colon. -/
theorem takeWhile_no_colon (l : List Char) (h : ':' ∉ l) :
    l.takeWhile (fun ch => ch != ':') = l := by
  induction l with
  | nil => simp
  | cons x rest ih =>
    have hx : x ≠ ':' := fun e => h (by simp [e])
    have hr : ':' ∉ rest := fun e => h (by simp [e])
    have hb : (x != ':') = true := by simpa using hx
    rw [List.takeWhile_cons, hb]
    simp [ih hr]

/-- The phone of a user id is the part of the id before its first colon. -/
theorem phone_before_colon (p rest : String) (name : Option String) (h : ':' ∉ p.data) :
    phone ⟨p ++ ":" ++ rest, name⟩ = p := by
  have hd : (p ++ ":" ++ rest).data = p.data ++ ':' :: rest.data := by
    simp [String.data_append]
  simp only [phone, hd, takeWhile_colon p.data rest.data h]

/-- The status of a registered session whose socket has an identity. -/
theorem getStatus_connected (c : Controller) (sessionId : String) (sock : Sock) (u : User)
    (hs : c.sessions.get sessionId = some sock) (hu : sock.user = some u) :
    getStatus c sessionId = statusConnected u := by
  simp [getStatus, hs, hu, statusConnected]

/-- The status of a registered session whose socket has no identity. -/
theorem getStatus_unpaired (c : Controller) (sessionId : String) (sock : Sock)
    (hs : c.sessions.get sessionId = some sock) (hu : sock.user = none) :
    getStatus c sessionId = statusUnpaired (c.qrCodes.has sessionId) := by
  simp [getStatus, hs, hu, statusUnpaired]

/-- The registration and pairing cache after an open event for `user`. -/
theorem step_opened_get (dr : DisconnectReason) (render : String → Option String)
    (c : Controller) (sessionId : String) (user : User) (sock : Sock)
    (hs : c.sessions.get sessionId = some sock) :
    (step dr render c (.opened sessionId user)).sessions.get sessionId =
      some { sock with user := some user } := by
  simp [step, connectionUpdate, Update.isOpen, qrBranch, truthy, openBranch, recordIdentity, hs]

/-- C11: the status request answers `disconnected` exactly when the id is not
in the registry; for a registered socket with an identity it answers
`connected` with the phone, which is the part of the user id before its first
colon, and with the name when there is one; for a registered socket without
identity it answers `qr` when a pairing artifact is cached and `pending`
otherwise.  After an open event for an account whose id starts with
"15551234567:" the answer is `connected` with the phone "15551234567". -/
theorem getStatus_reports_state (dr : DisconnectReason) (render : String → Option String)
    (c : Controller) (sessionId : String) :
    (getStatus c sessionId = .json [("status", .str "disconnected")] ↔
        c.sessions.has sessionId = false) ∧
      (∀ sock u, c.sessions.get sessionId = some sock → sock.user = some u →
        getStatus c sessionId =
          .json (("status", .str "connected") :: ("phone", .str (phone u)) ::
            (match u.name with
             | some n => [("name", .str n)]
             | none => []))) ∧
      (∀ sock, c.sessions.get sessionId = some sock → sock.user = none →
        getStatus c sessionId =
          .json [("status", .str (if c.qrCodes.has sessionId then "qr" else "pending"))]) ∧
      (∀ (p rest : String) (name : Option String), ':' ∉ p.data →
        phone ⟨p ++ ":" ++ rest, name⟩ = p) ∧
      (∀ (sock : Sock) (rest : String), c.sessions.get sessionId = some sock →
        getStatus (step dr render c (.opened sessionId ⟨"15551234567" ++ ":" ++ rest, none⟩))
            sessionId =
          .json [("status", .str "connected"), ("phone", .str "15551234567")]) ∧
      (∀ (sock : Sock) (rest n : String), c.sessions.get sessionId = some sock →
        getStatus (step dr render c (.opened sessionId ⟨"15551234567" ++ ":" ++ rest, some n⟩))
            sessionId =
          .json [("status", .str "connected"), ("phone", .str "15551234567"),
                 ("name", .str n)]) := by
  have hphone : ∀ (rest : String) (name : Option String),
      phone ⟨"15551234567" ++ ":" ++ rest, name⟩ = "15551234567" :=
    fun rest name => phone_before_colon "15551234567" rest name (by decide)
  refine ⟨?_, ?_, ?_, phone_before_colon, ?_, ?_⟩
  · cases hs : c.sessions.get sessionId with
    | none => simp [getStatus, hs, JsMap.has]
    | some sock =>
      cases hu : sock.user with
      | some u =>
        rw [getStatus_connected c sessionId sock u hs hu]
        simp [statusConnected, Response.json, JsMap.has, hs]
      | none =>
        rw [getStatus_unpaired c sessionId sock hs hu]
        cases c.qrCodes.has sessionId <;>
          simp [statusUnpaired, Response.json, JsMap.has, hs]
  · intro sock u hs hu
    rw [getStatus_connected c sessionId sock u hs hu]
    rfl
  · intro sock hs hu
    rw [getStatus_unpaired c sessionId sock hs hu]
    rfl
  · intro sock rest hs
    rw [getStatus_connected _ sessionId _ _ (step_opened_get dr render c sessionId _ sock hs) rfl]
    simp only [statusConnected, identityFields, hphone]
  · intro sock rest n hs
    rw [getStatus_connected _ sessionId _ _ (step_opened_get dr render c sessionId _ sock hs) rfl]
    simp only [statusConnected, identityFields, hphone]

/-- C11 at concrete inputs: session "B" is created and opens for the account
"15551234567:12@s.whatsapp.net"; before the open event its status is `pending`. -/
theorem getStatus_reports_state_witness :
    getStatus (step .baileys echoRender createdB
        (.opened "B" ⟨"15551234567" ++ ":" ++ "12@s.whatsapp.net", none⟩)) "B" =
      .json [("status", .str "connected"), ("phone", .str "15551234567")] ∧
    getStatus createdB "B" = .json [("status", .str "pending")] ∧
    phone ⟨"33612345678" ++ ":" ++ "7@s.whatsapp.net", some "Ana"⟩ = "33612345678" :=
  ⟨(getStatus_reports_state .baileys echoRender createdB "B").2.2.2.2.1 ⟨0, none⟩
      "12@s.whatsapp.net" (by decide),
   (getStatus_reports_state .baileys echoRender createdB "B").2.2.1 ⟨0, none⟩
      (by decide) rfl,
   (getStatus_reports_state .baileys echoRender createdB "B").2.2.2.1
      "33612345678" "7@s.whatsapp.net" (some "Ana") (by decide)⟩

/-! ## Session isolation -/

theorem sameEntries_refl (b : String) (c : Controller) : sameEntries b c c :=
  ⟨rfl, rfl, rfl, rfl⟩

theorem sameEntries_trans {b : String} {c c' c'' : Controller}
    (h : sameEntries b c c') (h' : sameEntries b c' c'') : sameEntries b c c'' :=
  ⟨h'.1.trans h.1, h'.2.1.trans h.2.1, h'.2.2.1.trans h.2.2.1, h'.2.2.2.trans h.2.2.2⟩

theorem sameEntries_qrBranch (render : String → Option String) {a b : String} (hab : b ≠ a)
    (qr : Option String) (c : Controller) :
    sameEntries b c (qrBranch render a qr c) := by
  refine ⟨by simp, by simp, ?_, by simp⟩
  unfold qrBranch
  split
  · split
    · exact JsMap.get_set_ne _ _ hab
    · rfl
  · rfl

theorem sameEntries_cleanupSession {a b : String} (hab : b ≠ a) (c : Controller) :
    sameEntries b c (cleanupSession a c) := by
  refine ⟨?_, ?_, ?_, ?_⟩
  · rw [cleanupSession_get_sessions]; simp [hab]
  · rw [cleanupSession_stores]; exact JsMap.get_delete_ne _ hab
  · rw [cleanupSession_qrCodes]; exact JsMap.get_delete_ne _ hab
  · rw [cleanupSession_retries]; exact JsMap.get_delete_ne _ hab

theorem sameEntries_removeAuth (a b : String) (c : Controller) :
    sameEntries b c (removeAuth a c) :=
  ⟨rfl, rfl, rfl, rfl⟩

theorem sameEntries_closeBranch (dr : DisconnectReason) {a b : String} (hab : b ≠ a)
    (lastDisconnect : Option DisconnectError) (c : Controller) :
    sameEntries b c (closeBranch dr a lastDisconnect c) := by
  unfold closeBranch
  split
  · exact sameEntries_trans (sameEntries_cleanupSession hab c) (sameEntries_removeAuth a b _)
  · split
    · exact ⟨rfl, rfl, rfl, JsMap.get_set_ne _ _ hab⟩
    · exact sameEntries_trans (sameEntries_cleanupSession hab c) (sameEntries_removeAuth a b _)

theorem sameEntries_openBranch {a b : String} (hab : b ≠ a) (c : Controller) :
    sameEntries b c (openBranch a c) :=
  ⟨rfl, rfl, JsMap.get_delete_ne _ hab, JsMap.get_delete_ne _ hab⟩

theorem sameEntries_initializeSessionBegin (a b : String) (c : Controller) :
    sameEntries b c (initializeSessionBegin a c) :=
  ⟨rfl, rfl, rfl, rfl⟩

theorem sameEntries_initializeSessionResume {a b : String} (hab : b ≠ a) (c : Controller) :
    sameEntries b c (initializeSessionResume a c) :=
  ⟨JsMap.get_set_ne _ _ hab, JsMap.get_set_ne _ _ hab, rfl, rfl⟩

theorem sameEntries_recordIdentity {a b : String} (hab : b ≠ a) (user : User)
    (c : Controller) : sameEntries b c (recordIdentity a user c) := by
  unfold recordIdentity
  split
  · exact ⟨JsMap.get_set_ne _ _ hab, rfl, rfl, rfl⟩
  · exact sameEntries_refl b c

theorem sameEntries_connectionUpdate (dr : DisconnectReason) (render : String → Option String)
    {a b : String} (hab : b ≠ a) (update : Update) (c : Controller) :
    sameEntries b c (connectionUpdate dr render a update c) := by
  have hq := sameEntries_qrBranch render hab update.qr c
  unfold connectionUpdate
  split
  · exact sameEntries_trans hq (sameEntries_closeBranch dr hab _ _)
  · exact sameEntries_trans hq (sameEntries_openBranch hab _)
  · exact hq

theorem sameEntries_afterDelay {a b : String} (hab : b ≠ a) (c : Controller) :
    sameEntries b c (afterDelay a c) := by
  have h0 : sameEntries b c { c with timers := c.timers.erase a } := ⟨rfl, rfl, rfl, rfl⟩
  exact sameEntries_trans (sameEntries_trans h0 (sameEntries_initializeSessionBegin a b _))
    (sameEntries_initializeSessionResume hab _)

theorem sameEntries_handleUpdate (dr : DisconnectReason) (render : String → Option String)
    {a b : String} (hab : b ≠ a) (update : Update) (c : Controller) :
    sameEntries b c (handleUpdate dr render a update c) := by
  have hu := sameEntries_connectionUpdate dr render hab update c
  unfold handleUpdate
  split
  · exact sameEntries_trans hu (sameEntries_afterDelay hab _)
  · exact hu

theorem sameEntries_deleteSession {a b : String} (hab : b ≠ a) (c : Controller) :
    sameEntries b c (deleteSession c a).1 := by
  unfold deleteSession
  split
  · exact sameEntries_trans (sameEntries_cleanupSession hab c) (sameEntries_removeAuth a b _)
  · exact sameEntries_refl b c

theorem sameEntries_logoutSession {a b : String} (hab : b ≠ a) (c : Controller) :
    sameEntries b c (logoutSession c a).1 := by
  unfold logoutSession
  split
  · exact sameEntries_refl b c
  · rename_i sock _
    have h0 : sameEntries b c { c with loggedOut := sock.sockId :: c.loggedOut } :=
      ⟨rfl, rfl, rfl, rfl⟩
    exact sameEntries_trans h0
      (sameEntries_trans (sameEntries_cleanupSession hab _) (sameEntries_removeAuth a b _))

theorem sameEntries_createSessionBegin (a : Option String) (b : String) (c : Controller) :
    sameEntries b c (createSessionBegin c a).1 := by
  unfold createSessionBegin
  split
  · split
    · exact sameEntries_refl b c
    · exact sameEntries_initializeSessionBegin _ b c
  · exact sameEntries_refl b c

/-- C12: for two distinct session ids `a` and `b`, the entries of `b` in the
sessions, stores, pairing-code and retry-count maps are left unchanged by the
handler of any `connection.update` event of `a` (up to its suspension, and run
to its end with the retry), by the end of a retry delay of `a`, by a cleanup,
a delete request and a logout request of `a`, and by every piece of execution
that is about `a`. -/
theorem session_isolation (dr : DisconnectReason) (render : String → Option String)
    (a b : String) (hab : b ≠ a) (c : Controller) :
    (∀ update : Update,
        sameEntries b c (connectionUpdate dr render a update c) ∧
          sameEntries b c (handleUpdate dr render a update c)) ∧
      sameEntries b c (afterDelay a c) ∧
      sameEntries b c (cleanupSession a c) ∧
      sameEntries b c (deleteSession c a).1 ∧
      sameEntries b c (logoutSession c a).1 ∧
      (∀ act : Action, act.session = some a → sameEntries b c (step dr render c act)) := by
  refine ⟨fun update => ⟨sameEntries_connectionUpdate dr render hab update c,
      sameEntries_handleUpdate dr render hab update c⟩,
    sameEntries_afterDelay hab c, sameEntries_cleanupSession hab c,
    sameEntries_deleteSession hab c, sameEntries_logoutSession hab c, ?_⟩
  intro act hact
  cases act with
  | create session_id => exact sameEntries_createSessionBegin session_id b c
  | resume sessionId =>
    simp only [Action.session, Option.some.injEq] at hact
    subst hact
    exact sameEntries_initializeSessionResume hab c
  | delete sessionId =>
    simp only [Action.session, Option.some.injEq] at hact
    subst hact
    exact sameEntries_deleteSession hab c
  | logout sessionId =>
    simp only [Action.session, Option.some.injEq] at hact
    subst hact
    exact sameEntries_logoutSession hab c
  | pairing sessionId qr =>
    simp only [Action.session, Option.some.injEq] at hact
    subst hact
    exact sameEntries_connectionUpdate dr render hab _ c
  | opened sessionId user =>
    simp only [Action.session, Option.some.injEq] at hact
    subst hact
    exact sameEntries_trans (sameEntries_recordIdentity hab user c)
      (sameEntries_connectionUpdate dr render hab _ _)
  | openedElsewhere sessionId =>
    simp only [Action.session, Option.some.injEq] at hact
    subst hact
    exact sameEntries_connectionUpdate dr render hab _ c
  | closed sessionId lastDisconnect =>
    simp only [Action.session, Option.some.injEq] at hact
    subst hact
    exact sameEntries_connectionUpdate dr render hab _ c
  | delayOver sessionId =>
    simp only [Action.session, Option.some.injEq] at hact
    subst hact
    have h0 : sameEntries b c { c with timers := c.timers.erase sessionId } :=
      ⟨rfl, rfl, rfl, rfl⟩
    exact sameEntries_trans h0 (sameEntries_initializeSessionBegin sessionId b _)

/-- C12 at concrete inputs: with "A" and "B" registered, a close of "A" with
code 401 and a delete request for "A" leave the socket, the cached artifact
and the retry count of "B" as they were. -/
theorem session_isolation_witness :
    sameEntries "B" twoSessions
        (handleUpdate .baileys echoRender "A" (.closed (some (.boom 401))) twoSessions) ∧
      sameEntries "B" twoSessions (deleteSession twoSessions "A").1 ∧
      twoSessions.sessions.get "B" = some { sockId := 1, user := none } ∧
      twoSessions.retries.get "B" = some 1 :=
  ⟨((session_isolation .baileys echoRender "A" "B" (by decide) twoSessions).1
      (.closed (some (.boom 401)))).2,
   (session_isolation .baileys echoRender "A" "B" (by decide) twoSessions).2.2.2.1,
   by decide, by decide⟩

/-! ## The lifetime of a cached pairing artifact -/

/-- A piece of execution that is not a pairing-code event of the session
leaves the cached artifact of the session as it is, or removes it. -/
theorem step_qrCodes_get (dr : DisconnectReason) (render : String → Option String)
    (sessionId : String) (c : Controller) (act : Action)
    (hp : ∀ qr, act ≠ .pairing sessionId qr) :
    (step dr render c act).qrCodes.get sessionId = c.qrCodes.get sessionId ∨
      (step dr render c act).qrCodes.get sessionId = none := by
  have hclean : ∀ (j : String) (c0 : Controller),
      c0.qrCodes = c.qrCodes →
      (removeAuth j (cleanupSession j c0)).qrCodes.get sessionId = c.qrCodes.get sessionId ∨
        (removeAuth j (cleanupSession j c0)).qrCodes.get sessionId = none := by
    intro j c0 h0
    rw [(removeAuth_cleanupSession_get j sessionId c0).2.1, h0]
    by_cases hj : sessionId = j
    · right; simp [hj]
    · left; simp [hj]
  have hopen : ∀ (j : String) (c0 : Controller),
      c0.qrCodes = c.qrCodes →
      (openBranch j c0).qrCodes.get sessionId = c.qrCodes.get sessionId ∨
        (openBranch j c0).qrCodes.get sessionId = none := by
    intro j c0 h0
    show (c0.qrCodes.delete j).get sessionId = _ ∨ (c0.qrCodes.delete j).get sessionId = none
    rw [JsMap.get_delete, h0]
    by_cases hj : sessionId = j
    · right; simp [hj]
    · left; simp [hj]
  cases act with
  | create session_id =>
    exact Or.inl (congrArg (fun m => m.get sessionId) (createSessionBegin_maps c session_id).2.1)
  | resume j => exact Or.inl rfl
  | delete j =>
    simp only [Zap.step, deleteSession]
    split
    · exact hclean j c rfl
    · exact Or.inl rfl
  | logout j =>
    simp only [Zap.step, logoutSession]
    split
    · exact Or.inl rfl
    · exact hclean j _ rfl
  | pairing j qr =>
    have hne : sessionId ≠ j := fun e => hp qr (by rw [e])
    simp only [Zap.step, connectionUpdate_pairing]
    exact Or.inl (sameEntries_qrBranch render hne (some qr) c).2.2.1
  | opened j user =>
    simp only [Zap.step, connectionUpdate_isOpen]
    exact hopen j _ (recordIdentity_fields j user c).1
  | openedElsewhere j =>
    simp only [Zap.step, connectionUpdate_isOpen]
    exact hopen j c rfl
  | closed j lastDisconnect =>
    simp only [Zap.step, connectionUpdate_closed]
    rcases closeBranch_cases dr j lastDisconnect c with hcl | ⟨-, hq, -, -, -⟩
    · rw [hcl]; exact hclean j c rfl
    · exact Or.inl (by rw [hq])
  | delayOver j => exact Or.inl rfl

/-- Along a run without pairing-code event of the session, a session without
cached artifact stays without. -/
theorem run_qrCodes_none (dr : DisconnectReason) (render : String → Option String)
    (sessionId : String) (actions : List Action) :
    ∀ c c', c.qrCodes.get sessionId = none → run dr render c actions = some c' →
      (∀ qr, Action.pairing sessionId qr ∉ actions) → c'.qrCodes.get sessionId = none := by
  induction actions with
  | nil =>
    intro c c' hq hr _
    simp only [run, Option.some.injEq] at hr
    subst hr
    exact hq
  | cons a rest ih =>
    intro c c' hq hr hp
    simp only [run] at hr
    split at hr
    · have ha : ∀ qr, a ≠ .pairing sessionId qr := by
        intro qr e
        exact hp qr (by simp [e])
      have hq' : (step dr render c a).qrCodes.get sessionId = none := by
        rcases step_qrCodes_get dr render sessionId c a ha with h | h
        · rw [h]; exact hq
        · exact h
      exact ih _ _ hq' hr (fun qr hm => hp qr (List.mem_cons_of_mem _ hm))
    · cases hr

/-- C9 as amended: the cached pairing artifact of a session is written only
by the handler of a pairing-code event of that session.  It is removed by
every open event of the session, by every close of the session that is
terminal or follows two retries, and by a delete or logout request for the
session when it is registered; a close that is retried, the end of the retry
delay and the resumed initialisation leave it as it is, and every piece of
execution other than a pairing-code event of the session leaves it as it is
or removes it.  So in every reachable state with a cached artifact for a
session, a pairing-code event of that session has been handled. -/
theorem cached_artifact_lifetime (dr : DisconnectReason) (render : String → Option String)
    (sessionId : String) :
    (∀ (c : Controller) (user : User),
      (step dr render c (.opened sessionId user)).qrCodes.get sessionId = none ∧
        (step dr render c (.openedElsewhere sessionId)).qrCodes.get sessionId = none) ∧
    (∀ (c : Controller) (lastDisconnect : Option DisconnectError),
      (doNotReconnect dr).contains (statusCode lastDisconnect) = true ∨
        ¬ retryCount sessionId c < 2 →
      (step dr render c (.closed sessionId lastDisconnect)).qrCodes.get sessionId = none) ∧
    (∀ c : Controller, c.sessions.has sessionId = true →
      (step dr render c (.delete sessionId)).qrCodes.get sessionId = none ∧
        (step dr render c (.logout sessionId)).qrCodes.get sessionId = none) ∧
    (∀ (c : Controller) (lastDisconnect : Option DisconnectError),
      (doNotReconnect dr).contains (statusCode lastDisconnect) = false →
      retryCount sessionId c < 2 →
      (step dr render c (.closed sessionId lastDisconnect)).qrCodes = c.qrCodes ∧
        (step dr render c (.delayOver sessionId)).qrCodes = c.qrCodes ∧
        (step dr render c (.resume sessionId)).qrCodes = c.qrCodes) ∧
    (∀ (c : Controller) (act : Action), (∀ qr, act ≠ .pairing sessionId qr) →
      (step dr render c act).qrCodes.get sessionId = c.qrCodes.get sessionId ∨
        (step dr render c act).qrCodes.get sessionId = none) ∧
    (∀ (c c' : Controller) (actions : List Action), c.qrCodes.get sessionId = none →
      run dr render c actions = some c' →
      (∀ qr, Action.pairing sessionId qr ∉ actions) → c'.qrCodes.get sessionId = none) ∧
    (∀ (c : Controller) (actions : List Action),
      run dr render .init actions = some c → c.qrCodes.has sessionId = true →
      ∃ qr, Action.pairing sessionId qr ∈ actions) := by
  refine ⟨?_, ?_, ?_, ?_, step_qrCodes_get dr render sessionId, ?_, ?_⟩
  · intro c user
    simp only [Zap.step, connectionUpdate_isOpen]
    exact ⟨by simp [openBranch], by simp [openBranch]⟩
  · intro c lastDisconnect h
    have hu : (Update.closed lastDisconnect).connection = some .close := rfl
    have := (handleUpdate_stop dr render sessionId (.closed lastDisconnect) c hu h).2
    show (connectionUpdate dr render sessionId (.closed lastDisconnect) c).qrCodes.get
      sessionId = none
    rw [this]
    exact (erased_removeAuth_cleanupSession sessionId _).2.2.1
  · intro c hs
    have hs' : ∃ sock, c.sessions.get sessionId = some sock := by
      simpa [JsMap.has, Option.isSome_iff_exists] using hs
    obtain ⟨sock, hsock⟩ := hs'
    refine ⟨?_, ?_⟩
    · simp only [Zap.step, deleteSession, hs, if_true]
      exact (erased_removeAuth_cleanupSession sessionId c).2.2.1
    · simp only [Zap.step, logoutSession, hsock]
      exact (erased_removeAuth_cleanupSession sessionId _).2.2.1
  · intro c lastDisconnect ht hr
    refine ⟨?_, rfl, rfl⟩
    have hcu := connectionUpdate_retry dr render sessionId (.closed lastDisconnect) c
      ⟨rfl, ht⟩ hr
    show (connectionUpdate dr render sessionId (.closed lastDisconnect) c).qrCodes = _
    rw [hcu]
    simp [Update.closed, qrBranch, truthy]
  · intro c c' actions
    exact run_qrCodes_none dr render sessionId actions c c'
  · intro c actions hr hq
    by_contra hno
    have hno' : ∀ qr, Action.pairing sessionId qr ∉ actions := by
      intro qr hm
      exact hno ⟨qr, hm⟩
    have := run_qrCodes_none dr render sessionId actions .init c rfl hr hno'
    simp [JsMap.has, this] at hq

/-- C9 as amended at concrete inputs: the artifact of "A" is removed by an
open event and kept by a close with code 408 that is retried; the run that
ends with "A" waiting out its retry delay with a cached artifact contains a
pairing-code event of "A". -/
theorem cached_artifact_lifetime_witness :
    (step .baileys echoRender awaitingPairing
        (.opened "A" ⟨"15551234567:12@s.whatsapp.net", none⟩)).qrCodes.get "A" = none ∧
      (step .baileys echoRender awaitingPairing (.closed "A" (some (.boom 408)))).qrCodes =
        awaitingPairing.qrCodes ∧
      (∃ qr, Action.pairing "A" qr ∈ pairThenClose) :=
  ⟨((cached_artifact_lifetime .baileys echoRender "A").1 awaitingPairing
      ⟨"15551234567:12@s.whatsapp.net", none⟩).1,
   ((cached_artifact_lifetime .baileys echoRender "A").2.2.2.1 awaitingPairing
      (some (.boom 408)) (by decide) (by decide)).1,
   (cached_artifact_lifetime .baileys echoRender "A").2.2.2.2.2.2
      (step .baileys echoRender awaitingPairing (.closed "A" (some (.boom 408))))
      pairThenClose (by decide) (by decide)⟩

/-- Two more executions with a cached artifact: one in which "A" is not in the
registry (its pairing code was handled after a delete request) and one in
which "A" is connected (the code came from the socket that a second,
interleaved create request left unregistered). -/
theorem cached_artifact_off_registry_runs :
    (run .baileys echoRender .init deleteThenPairing).map
        (fun c => (c.qrCodes.has "A", c.sessions.has "A")) = some (true, false) ∧
      (run .baileys echoRender .init openThenPairing).map
        (fun c => (c.qrCodes.has "A", connected c "A")) = some (true, true) := by
  decide

end Zap
